import Mathlib

/-!
Verification development for the Spark neighbor-discovery engine
(`src/openr/spark/Spark.cpp`).

The engine is embedded shallowly: the per-(interface, neighbor) state
machine, the HELLO/HANDSHAKE/HEARTBEAT processing paths, the timer
expiration handlers, the label allocator, the RTT pipeline, the packet
sanity check, the area resolver and the interface filtering are all
translated from the source as executable Lean functions over a record
of the engine state restricted to a single tracked interface (all the
collections of the engine are keyed by interface name first, and every
claim under study is per-interface).

Modelling conventions, stated once:
  * `std::unordered_map` becomes a function into `Option`;
    `std::set`/`std::unordered_set` becomes a duplicate-free `List`.
  * timers are modelled by their armed/disarmed status (a `Bool` field
    per timer); a timer expiration is a step that may only occur while
    the timer is armed, and firing a one-shot timer disarms it.
  * a failing `CHECK(...)` or a null-pointer dereference aborts the
    process; the handlers that can abort return `Option SparkState`
    with `none` for the abort, and an aborted execution has no
    successor states.
  * a thrown exception that is caught by the `processPacket` catch
    block leaves exactly the mutations already performed; the model
    returns the corresponding state.
  * sending on the UDP socket may succeed or fail; the outcome is a
    `Bool` parameter of the step (`sendOk`), and an oversized packet is
    folded into the failing outcome, since both leave the state
    identical except for counters.
  * fb303 counters become a function `String → Nat`; emitted neighbor
    events and sent packets are accumulated in lists.
  * library code out of the spec's scope (folly address parsing and
    subnet test, RE2 regex sets) is modelled: a regex set is a
    predicate `String → Bool`, a V4 address is its list of bytes
    (parsing succeeds iff there are 4 of them) and the subnet test
    compares the network prefixes numerically.
  * `Constants::kSrLocalRange` and the enum declarations live in
    headers that are not part of `src/`; the range is a parameter
    `(kSrFirst, kSrSecond)` and the enum index order is modelled from
    the row/column comments of `stateMap_` in the source.
-/

set_option maxHeartbeats 1000000
set_option linter.unusedVariables false

namespace Spark

/-- Neighbor FSM states, `SparkNeighState` of the source. -/
inductive SparkNeighState
  | IDLE
  | WARM
  | NEGOTIATE
  | ESTABLISHED
  | RESTART
deriving DecidableEq

/-- Neighbor FSM events, `SparkNeighEvent` of the source.  The
declaration order (hence the column index of `stateMap_`) is taken from
the comments of `stateMap_` in `Spark.cpp` (the header declaring the
enum is not under `src/`). -/
inductive SparkNeighEvent
  | HELLO_RCVD_INFO
  | HELLO_RCVD_NO_INFO
  | HELLO_RCVD_RESTART
  | HEARTBEAT_RCVD
  | HANDSHAKE_RCVD
  | HEARTBEAT_TIMER_EXPIRE
  | NEGOTIATE_TIMER_EXPIRE
  | GR_TIMER_EXPIRE
  | NEGOTIATION_FAILURE
deriving DecidableEq

/-- Row index of a state in `stateMap_`. -/
def SparkNeighState.toIdx : SparkNeighState → Nat
  | .IDLE => 0
  | .WARM => 1
  | .NEGOTIATE => 2
  | .ESTABLISHED => 3
  | .RESTART => 4

/-- Column index of an event in `stateMap_`. -/
def SparkNeighEvent.toIdx : SparkNeighEvent → Nat
  | .HELLO_RCVD_INFO => 0
  | .HELLO_RCVD_NO_INFO => 1
  | .HELLO_RCVD_RESTART => 2
  | .HEARTBEAT_RCVD => 3
  | .HANDSHAKE_RCVD => 4
  | .HEARTBEAT_TIMER_EXPIRE => 5
  | .NEGOTIATE_TIMER_EXPIRE => 6
  | .GR_TIMER_EXPIRE => 7
  | .NEGOTIATION_FAILURE => 8

/-- The transition table `Spark::stateMap_`, row by row exactly as in
the source (`std::nullopt` becomes `none`). -/
def stateMap : List (List (Option SparkNeighState)) :=
  [ -- index 0 - IDLE
    [some .WARM, some .WARM, none, none, none, none, none, none, none],
    -- index 1 - WARM
    [some .NEGOTIATE, none, none, none, none, none, none, none, none],
    -- index 2 - NEGOTIATE
    [none, none, none, none, some .ESTABLISHED, none, some .WARM, none,
     some .WARM],
    -- index 3 - ESTABLISHED
    [none, some .IDLE, some .RESTART, some .ESTABLISHED, none, some .IDLE,
     none, none, none],
    -- index 4 - RESTART
    [some .ESTABLISHED, none, none, none, none, none, none, some .IDLE,
     none] ]

/-- `Spark::getNextState`: look the pair up in `stateMap_`.  The source
`CHECK`s that the entry is present and crashes otherwise; `none`
models that crash. -/
def getNextState (currState : SparkNeighState) (event : SparkNeighEvent) :
    Option SparkNeighState :=
  (stateMap.getD currState.toIdx []).getD event.toIdx none

/-- The transition table exactly as written in §4.4 of the spec
(definition follows the SPEC's words, to be compared against
`getNextState` which follows the source); `none` is "event not listed
for this state", which the spec says is dropped. -/
def specTransitionTable : SparkNeighState → SparkNeighEvent → Option SparkNeighState
  | .IDLE, .HELLO_RCVD_INFO => some .WARM
  | .IDLE, .HELLO_RCVD_NO_INFO => some .WARM
  | .WARM, .HELLO_RCVD_INFO => some .NEGOTIATE
  | .NEGOTIATE, .HANDSHAKE_RCVD => some .ESTABLISHED
  | .NEGOTIATE, .NEGOTIATE_TIMER_EXPIRE => some .WARM
  | .NEGOTIATE, .NEGOTIATION_FAILURE => some .WARM
  | .ESTABLISHED, .HELLO_RCVD_NO_INFO => some .IDLE
  | .ESTABLISHED, .HELLO_RCVD_RESTART => some .RESTART
  | .ESTABLISHED, .HEARTBEAT_RCVD => some .ESTABLISHED
  | .ESTABLISHED, .HEARTBEAT_TIMER_EXPIRE => some .IDLE
  | .RESTART, .HELLO_RCVD_INFO => some .ESTABLISHED
  | .RESTART, .GR_TIMER_EXPIRE => some .IDLE
  | _, _ => none

/-- `PacketValidationResult` (only the alternatives used by the hello
path appear in the source file). -/
inductive PacketValidationResult
  | SUCCESS
  | FAILURE
  | SKIP_LOOPED_SELF
deriving DecidableEq

/-- `Spark::sanityCheckHelloPkt`: the three checks in source order.
Returns the result together with the counter the source bumps on that
path. -/
def sanityCheckHelloPkt (myNodeName myDomainName : String)
    (lowestSupportedVersion : Nat) (domainName neighborName : String)
    (remoteVersion : Nat) : PacketValidationResult × Option String :=
  if neighborName = myNodeName then
    (.SKIP_LOOPED_SELF, some "spark.invalid_keepalive.looped_packet")
  else if domainName ≠ myDomainName then
    (.FAILURE, some "spark.invalid_keepalive.different_domain")
  else if remoteVersion < lowestSupportedVersion then
    (.FAILURE, some "spark.invalid_keepalive.invalid_version")
  else
    (.SUCCESS, none)

/-- Numeric value of a V4 address given as its list of bytes (model of
`folly::IPAddress` over the 4-byte case). -/
def v4AddrToNat (bytes : List Nat) : Nat :=
  bytes.foldl (fun a b => a * 256 + b) 0

/-- `Spark::validateV4AddressSubnet`.  Parsing the neighbor address
succeeds iff it has 4 bytes (model of `toIPAddress` on a V4
`BinaryAddress`); the subnet test compares the network prefixes of the
two addresses under the local prefix length (model of
`folly::IPAddress::inSubnet`). -/
def validateV4AddressSubnet (myV4Addr myV4PrefixLen : Nat)
    (neighV4Addr : List Nat) : PacketValidationResult × Option String :=
  if neighV4Addr.length ≠ 4 then
    (.FAILURE, some "spark.invalid_keepalive.missing_v4_addr")
  else if v4AddrToNat neighV4Addr / 2 ^ (32 - myV4PrefixLen) ≠
      myV4Addr / 2 ^ (32 - myV4PrefixLen) then
    (.FAILURE, some "spark.invalid_keepalive.different_subnet")
  else
    (.SUCCESS, none)

/-- One row of `areaIdRegexList_`: areaId, optional neighbor-name regex
set, optional interface-name regex set.  A compiled RE2 set is modelled
as the predicate it decides. -/
def AreaRow : Type := String × Option (String → Bool) × Option (String → Bool)

/-- Whether one row of the area table matches, mirroring the
`if / else if / else if` chain in `Spark::getNeighborArea`: with both
sets present, both must match; one failing both-test does NOT fall
through to the single-set branches. -/
def rowMatches (peerNodeName localIfName : String) (row : AreaRow) : Bool :=
  match row.2.1, row.2.2 with
  | some neighborRegex, some interfaceRegex =>
      neighborRegex peerNodeName && interfaceRegex localIfName
  | some neighborRegex, none => neighborRegex peerNodeName
  | none, some interfaceRegex => interfaceRegex localIfName
  | none, none => false

/-- `Spark::getNeighborArea`: collect the areaIds of all matching rows;
zero or more than one candidate refuses the neighbor (returning also
the counter the source bumps), exactly one returns it
(`candidateAreas.back()`). -/
def getNeighborArea (peerNodeName localIfName : String)
    (areaIdRegexList : List AreaRow) : Option String × Option String :=
  let candidateAreas :=
    (areaIdRegexList.filter (rowMatches peerNodeName localIfName)).map
      (fun r => r.1)
  if candidateAreas.isEmpty then
    (none, some "spark.neighbor_no_area")
  else if 1 < candidateAreas.length then
    (none, some "spark.neighbor_multiple_area")
  else
    (candidateAreas.getLast?, none)

/-- Result of `Spark::getNewLabelForIface`.  `ok` carries the label and
the updated `allocatedLabels_`; `exhausted` is the
`std::runtime_error` throw (carrying the set as mutated before the
throw); `fuelOut` is a modelling artifact of the bounded probe loop,
proved unreachable. -/
inductive LabelResult
  | ok (label : Int) (alloc : List Int)
  | exhausted (alloc : List Int)
  | fuelOut
deriving DecidableEq

/-- The `while (!allocatedLabels_.insert(label).second) label--;` probe:
walk down from `label` until a value not in the set is found, then
insert it.  `fuel` bounds the recursion; `allocatedLabels_.size() + 1`
steps always suffice. -/
def probeDownAux : Nat → Int → List Int → Option (Int × List Int)
  | 0, _, _ => none
  | fuel + 1, label, alloc =>
      if label ∈ alloc then probeDownAux fuel (label - 1) alloc
      else some (label, label :: alloc)

/-- `Spark::getNewLabelForIface` with the range
`Constants::kSrLocalRange` as parameters (the constant lives in a
header outside `src/`): first try `kSrLocalRange.first + ifIndex`; if
taken, probe downward from `kSrLocalRange.second`; throw when the probe
lands strictly below `kSrLocalRange.first`. -/
def getNewLabelForIface (kSrFirst kSrSecond : Int) (allocatedLabels : List Int)
    (ifIndex : Int) : LabelResult :=
  let label := kSrFirst + ifIndex
  if label ∈ allocatedLabels then
    match probeDownAux (allocatedLabels.length + 1) kSrSecond allocatedLabels with
    | none => .fuelOut
    | some (lab, alloc) =>
        if lab < kSrFirst then .exhausted alloc else .ok lab alloc
  else
    .ok label (label :: allocatedLabels)

/-- `thrift::ReflectedNeighborInfo`. -/
structure ReflectedNeighborInfo where
  seqNum : Nat
  lastNbrMsgSentTsInUs : Int
  lastMyMsgRcvdTsInUs : Int
deriving DecidableEq

/-- `thrift::SparkHelloMsg`. -/
structure SparkHelloMsg where
  domainName : String
  nodeName : String
  ifName : String
  seqNum : Nat
  version : Nat
  solicitResponse : Bool
  restarting : Bool
  sentTsInUs : Int
  neighborInfos : List (String × ReflectedNeighborInfo)
deriving DecidableEq

/-- `thrift::SparkHandshakeMsg`. -/
structure SparkHandshakeMsg where
  nodeName : String
  isAdjEstablished : Bool
  holdTime : Nat
  gracefulRestartTime : Nat
  transportAddressV6 : List Nat
  transportAddressV4 : List Nat
  openrCtrlThriftPort : Nat
  kvStoreCmdPort : Nat
  area : String
  neighborNodeName : Option String
deriving DecidableEq

/-- `thrift::SparkHeartbeatMsg`. -/
structure SparkHeartbeatMsg where
  nodeName : String
  seqNum : Nat
deriving DecidableEq

/-- `Spark::Spark2Neighbor`.  Timers are modelled by their armed
status; the step detector by the list of samples fed to it. -/
structure Spark2Neighbor where
  domainName : String
  nodeName : String
  remoteIfName : String
  label : Int
  seqNum : Nat
  state : SparkNeighState
  area : String
  kvStoreCmdPort : Nat
  openrCtrlThriftPort : Nat
  transportAddressV4 : List Nat
  transportAddressV6 : List Nat
  heartbeatHoldTime : Nat
  gracefulRestartHoldTime : Nat
  neighborTimestamp : Int
  localTimestamp : Int
  rtt : Int
  rttLatest : Int
  negotiateTimer : Bool
  negotiateHoldTimer : Bool
  heartbeatHoldTimer : Bool
  gracefulRestartHoldTimer : Bool
  stepDetectorSamples : List (Int × Int)
deriving DecidableEq

/-- The `Spark2Neighbor` constructor of the source: identity fields
from the hello, state `IDLE`, everything else default-initialized. -/
def Spark2Neighbor.create (domainName nodeName remoteIfName : String)
    (label : Int) (seqNum : Nat) (adjArea : String) : Spark2Neighbor :=
  { domainName := domainName
    nodeName := nodeName
    remoteIfName := remoteIfName
    label := label
    seqNum := seqNum
    state := .IDLE
    area := adjArea
    kvStoreCmdPort := 0
    openrCtrlThriftPort := 0
    transportAddressV4 := []
    transportAddressV6 := []
    heartbeatHoldTime := 0
    gracefulRestartHoldTime := 0
    neighborTimestamp := 0
    localTimestamp := 0
    rtt := 0
    rttLatest := 0
    negotiateTimer := false
    negotiateHoldTimer := false
    heartbeatHoldTimer := false
    gracefulRestartHoldTimer := false
    stepDetectorSamples := [] }

/-- `Spark::updateNeighborRtt` restricted to one neighbor (the map
lookups around it live in the caller).  Returns the sample fed to the
step detector (`none` when the sample is skipped) and the updated
neighbor.  `Int.div` is C++ integer division (truncation toward
zero). -/
def updateNeighborRtt (myRecvTime mySentTime nbrRecvTime nbrSentTime : Int)
    (nb : Spark2Neighbor) : Option Int × Spark2Neighbor :=
  if mySentTime = 0 ∨ nbrRecvTime = 0 then (none, nb)
  else if nbrSentTime < nbrRecvTime then (none, nb)
  else if myRecvTime < mySentTime then (none, nb)
  else
    let rtt := (myRecvTime - mySentTime) - (nbrSentTime - nbrRecvTime)
    -- Mask off to millisecond accuracy, floored at 1000us
    -- (Int.tdiv is C++ integer division: truncation toward zero)
    let rtt := max (Int.tdiv rtt 1000 * 1000) 1000
    -- clock-anomaly guard of the source, placed AFTER the flooring
    if rtt < 0 then (none, nb)
    else
      let nb :=
        { nb with stepDetectorSamples :=
            nb.stepDetectorSamples ++ [(Int.tdiv myRecvTime 1000, rtt)] }
      let nb := if nb.rtt = 0 then { nb with rtt := rtt } else nb
      (some rtt, { nb with rttLatest := rtt })

/-- `thrift::SparkNeighborEventType`. -/
inductive SparkNeighborEventType
  | NEIGHBOR_UP
  | NEIGHBOR_DOWN
  | NEIGHBOR_RESTARTING
  | NEIGHBOR_RESTARTED
  | NEIGHBOR_RTT_CHANGE
deriving DecidableEq

/-- A packet handed to the socket (what the claims need of it). -/
inductive SentMsg
  | helloM (seqNum : Nat) (solicitResponse restarting : Bool)
  | handshakeM (isAdjEstablished : Bool)
  | heartbeatM (seqNum : Nat)
deriving DecidableEq

/-- The configuration the modelled paths read (constructor arguments
and members of `Spark`, plus the interface entry of the single tracked
interface). -/
structure SparkConfig where
  myDomainName : String
  myNodeName : String
  lowestSupportedVersion : Nat
  enableV4 : Bool
  ifName : String
  ifIndex : Int
  myV4Addr : Nat
  myV4PrefixLen : Nat
  kSrFirst : Int
  kSrSecond : Int
  kDefaultArea : String
  myHeartbeatHoldTime : Nat
  myHoldTime : Nat
  areaIdRegexList : List AreaRow

/-- The engine state restricted to one interface: its
`spark2Neighbors_` submap, its `ifNameToActiveNeighbors_` entry
(`none` = key absent), `allocatedLabels_`, `mySeqNum_`, the fb303
counters, the published neighbor events and the packets handed to the
socket.  `tracked` is whether the interface is in `interfaceDb_` /
`spark2Neighbors_`. -/
structure SparkState where
  tracked : Bool
  neighbors : String → Option Spark2Neighbor
  activeNeighbors : Option (List String)
  allocatedLabels : List Int
  mySeqNum : Nat
  counters : String → Nat
  events : List (SparkNeighborEventType × String)
  sentMsgs : List SentMsg

/-- `fb303::fbData->addStatValue(key, 1)`. -/
def bumpCounter (key : String) (s : SparkState) : SparkState :=
  { s with counters := fun k => if k = key then s.counters k + 1 else s.counters k }

/-- Bump a counter when one is given. -/
def bumpOpt : Option String → SparkState → SparkState
  | none, s => s
  | some key, s => bumpCounter key s

/-- `Spark::notifySparkNeighborEvent` (the event payload is reduced to
the event type and the neighbor name). -/
def notifySparkNeighborEvent (eventType : SparkNeighborEventType)
    (neighborName : String) (s : SparkState) : SparkState :=
  { s with events := s.events ++ [(eventType, neighborName)] }

/-- Write a neighbor into the submap. -/
def setNb (name : String) (nb : Spark2Neighbor) (s : SparkState) : SparkState :=
  { s with neighbors := fun m => if m = name then some nb else s.neighbors m }

/-- Erase a neighbor from the submap. -/
def eraseNb (name : String) (s : SparkState) : SparkState :=
  { s with neighbors := fun m => if m = name then none else s.neighbors m }

/-- The active-neighbor set of the interface (empty when the key is
absent). -/
def activeList (s : SparkState) : List String :=
  s.activeNeighbors.getD []

/-- Membership in `ifNameToActiveNeighbors_[ifName]`. -/
def isActive (s : SparkState) (n : String) : Prop :=
  n ∈ activeList s

instance (s : SparkState) (n : String) : Decidable (isActive s n) := by
  unfold isActive
  exact inferInstance

/-- `Spark::neighborUpWrapper`: drop the negotiate timers, arm the
heartbeat hold timer, add the name to the active set, publish
`NEIGHBOR_UP`. -/
def neighborUpWrapper (neighborName : String) (nb : Spark2Neighbor)
    (s : SparkState) : SparkState :=
  let nb := { nb with
    negotiateTimer := false
    negotiateHoldTimer := false
    heartbeatHoldTimer := true }
  let s := setNb neighborName nb s
  let cur := s.activeNeighbors.getD []
  let s := { s with activeNeighbors := some (if cur.contains neighborName then cur else neighborName :: cur) }
  notifySparkNeighborEvent .NEIGHBOR_UP neighborName s

/-- `Spark::neighborDownWrapper`: publish `NEIGHBOR_DOWN`, then erase
the name from the active set (erasing the whole entry when it becomes
empty); when the interface has no active entry at all, only warn. -/
def neighborDownWrapper (neighborName : String) (s : SparkState) : SparkState :=
  let s := notifySparkNeighborEvent .NEIGHBOR_DOWN neighborName s
  match s.activeNeighbors with
  | none => s
  | some l =>
      let l := l.filter (fun x => x != neighborName)
      if l.isEmpty then { s with activeNeighbors := none }
      else { s with activeNeighbors := some l }

/-- `Spark::sendHelloMsg`.  An untracked interface returns before the
`SCOPE_EXIT` is installed; otherwise the sequence number is incremented
exactly once whatever the send outcome. -/
def sendHelloMsg (cfg : SparkConfig) (inFastInitState restarting sendOk : Bool)
    (s : SparkState) : SparkState :=
  if ¬ s.tracked then s
  else
    let s1 :=
      if sendOk then
        bumpCounter "spark.hello.packets_sent"
          { s with sentMsgs :=
              s.sentMsgs ++ [.helloM s.mySeqNum inFastInitState restarting] }
      else s
    { s1 with mySeqNum := s1.mySeqNum + 1 }

/-- `Spark::sendHandshakeMsg` (does not touch `mySeqNum_`). -/
def sendHandshakeMsg (cfg : SparkConfig) (isAdjEstablished sendOk : Bool)
    (s : SparkState) : SparkState :=
  if ¬ s.tracked then s
  else if sendOk then
    bumpCounter "spark.handshake.packets_sent"
      { s with sentMsgs := s.sentMsgs ++ [.handshakeM isAdjEstablished] }
  else s

/-- `Spark::sendHeartbeatMsg`.  The `SCOPE_EXIT` incrementing
`mySeqNum_` is installed before anything else, so the increment happens
on every call, in particular when the interface has no active neighbor
and the send is skipped. -/
def sendHeartbeatMsg (cfg : SparkConfig) (sendOk : Bool) (s : SparkState) :
    SparkState :=
  let s1 :=
    if s.activeNeighbors = none then s
    else if sendOk then
      bumpCounter "spark.heartbeat.packets_sent"
        { s with sentMsgs := s.sentMsgs ++ [.heartbeatM s.mySeqNum] }
    else s
  { s1 with mySeqNum := s1.mySeqNum + 1 }

/-- `Spark::processGRMsg`: publish `NEIGHBOR_RESTARTING`, arm the
graceful-restart hold timer, transition by `HELLO_RCVD_RESTART`, drop
the heartbeat hold timer.  The active set is NOT touched. -/
def processGRMsg (neighborName : String) (nb : Spark2Neighbor)
    (s : SparkState) : SparkState :=
  let s := notifySparkNeighborEvent .NEIGHBOR_RESTARTING neighborName s
  let nb := { nb with gracefulRestartHoldTimer := true }
  let nb := { nb with state := (getNextState nb.state .HELLO_RCVD_RESTART).getD nb.state }
  let nb := { nb with heartbeatHoldTimer := false }
  setNb neighborName nb s

/-- The per-state dispatch at the end of `Spark::processHelloMsg`,
acting on the neighbor `nb2` stored for `msg.nodeName` in `s` (the
timestamp and RTT updates have already been written back). -/
def helloDispatch (cfg : SparkConfig) (msg : SparkHelloMsg)
    (tsIt : Option ReflectedNeighborInfo) (nb2 : Spark2Neighbor)
    (s : SparkState) : SparkState :=
  let neighborName := msg.nodeName
  match nb2.state with
  | .IDLE =>
      setNb neighborName
        { nb2 with state := (getNextState .IDLE .HELLO_RCVD_NO_INFO).getD nb2.state } s
  | .WARM =>
      let nb3 := { nb2 with seqNum := msg.seqNum }
      let s := setNb neighborName nb3 s
      match tsIt with
      | none => s
      | some ts =>
          -- my own Seq# as seen by the neighbor must be below mySeqNum_
          if s.mySeqNum ≤ ts.seqNum then s
          else
            setNb neighborName
              { nb3 with
                negotiateTimer := true
                negotiateHoldTimer := true
                state := (getNextState .WARM .HELLO_RCVD_INFO).getD nb3.state } s
  | .ESTABLISHED =>
      let nb3 := { nb2 with seqNum := msg.seqNum }
      let s := setNb neighborName nb3 s
      if msg.restarting then processGRMsg neighborName nb3 s
      else
        match tsIt with
        | none =>
            let nb4 := { nb3 with state := (getNextState .ESTABLISHED .HELLO_RCVD_NO_INFO).getD nb3.state }
            let s := setNb neighborName nb4 s
            let s := neighborDownWrapper neighborName s
            eraseNb neighborName
              { s with allocatedLabels := s.allocatedLabels.filter (fun x => x != nb4.label) }
        | some _ => s
  | .RESTART =>
      match tsIt with
      | none => s
      | some _ =>
          if nb2.seqNum < msg.seqNum then s
          else
            let nb3 := { nb2 with seqNum := msg.seqNum }
            let s := notifySparkNeighborEvent .NEIGHBOR_RESTARTED neighborName s
            setNb neighborName
              { nb3 with
                heartbeatHoldTimer := true
                gracefulRestartHoldTimer := false
                state := (getNextState .RESTART .HELLO_RCVD_INFO).getD nb3.state } s
  | .NEGOTIATE => s

/-- The part of `Spark::processHelloMsg` that runs once the neighbor is
present in the submap: timestamp updates, RTT deduction, the
fast-init reply and the per-state dispatch. -/
def processHelloMsgKnown (cfg : SparkConfig) (msg : SparkHelloMsg)
    (myRecvTimeInUs : Int) (sendOk : Bool) (s : SparkState) : SparkState :=
  match s.neighbors msg.nodeName with
  | none => s
  | some nb0 =>
    let neighborName := msg.nodeName
    let tsIt := msg.neighborInfos.lookup cfg.myNodeName
    let nb1 := { nb0 with
      neighborTimestamp := msg.sentTsInUs
      localTimestamp := myRecvTimeInUs }
    let nb2 :=
      match tsIt with
      | some ts =>
          (updateNeighborRtt myRecvTimeInUs ts.lastNbrMsgSentTsInUs
            ts.lastMyMsgRcvdTsInUs msg.sentTsInUs nb1).2
      | none => nb1
    let s := setNb neighborName nb2 s
    let s := if msg.solicitResponse then sendHelloMsg cfg false false sendOk s else s
    helloDispatch cfg msg tsIt nb2 s

/-- `Spark::processHelloMsg`: interface check, sanity check, neighbor
creation (area deduction, label allocation) and the common path. -/
def processHelloMsg (cfg : SparkConfig) (msg : SparkHelloMsg)
    (myRecvTimeInUs : Int) (sendOk : Bool) (s : SparkState) : SparkState :=
  if ¬ s.tracked then s
  else
    let sc := sanityCheckHelloPkt cfg.myNodeName cfg.myDomainName
      cfg.lowestSupportedVersion msg.domainName msg.nodeName msg.version
    let s := bumpOpt sc.2 s
    if sc.1 ≠ PacketValidationResult.SUCCESS then s
    else
      match s.neighbors msg.nodeName with
      | some _ => processHelloMsgKnown cfg msg myRecvTimeInUs sendOk s
      | none =>
          let ar := getNeighborArea msg.nodeName cfg.ifName cfg.areaIdRegexList
          let s := bumpOpt ar.2 s
          match ar.1 with
          | none => s
          | some area =>
              match getNewLabelForIface cfg.kSrFirst cfg.kSrSecond
                  s.allocatedLabels cfg.ifIndex with
              | .fuelOut => s
              | .exhausted alloc =>
                  -- the runtime_error propagates to processPacket's catch;
                  -- the set keeps the insertions made before the throw
                  { s with allocatedLabels := alloc }
              | .ok label alloc =>
                  let nb := Spark2Neighbor.create msg.domainName msg.nodeName
                    msg.ifName label msg.seqNum area
                  let s := setNb msg.nodeName nb
                    { s with allocatedLabels := alloc }
                  processHelloMsgKnown cfg msg myRecvTimeInUs sendOk s

/-- The negotiation step of `Spark::processHandshakeMsg`, reached only
with the neighbor `nb` (stored in `s`) in `NEGOTIATE` state: record the
peer capabilities and hold times, validate the V4 subnet, check the
area agreement, and on success promote the neighbor. -/
def handshakeNegotiate (cfg : SparkConfig) (msg : SparkHandshakeMsg)
    (nb0 : Spark2Neighbor) (s : SparkState) : SparkState :=
  let nb := { nb0 with
    kvStoreCmdPort := msg.kvStoreCmdPort
    openrCtrlThriftPort := msg.openrCtrlThriftPort
    transportAddressV4 := msg.transportAddressV4
    transportAddressV6 := msg.transportAddressV6
    heartbeatHoldTime := max msg.holdTime cfg.myHeartbeatHoldTime
    gracefulRestartHoldTime := max msg.gracefulRestartTime cfg.myHoldTime }
  let s := setNb msg.nodeName nb s
  let v4res :=
    if cfg.enableV4 then
      validateV4AddressSubnet cfg.myV4Addr cfg.myV4PrefixLen
        msg.transportAddressV4
    else (.SUCCESS, none)
  let s := bumpOpt v4res.2 s
  if v4res.1 = PacketValidationResult.FAILURE then
    setNb msg.nodeName
      { nb with
        state := (getNextState nb.state .NEGOTIATION_FAILURE).getD nb.state
        negotiateTimer := false
        negotiateHoldTimer := false } s
  else if nb.area ≠ cfg.kDefaultArea ∧ msg.area ≠ cfg.kDefaultArea then
    if nb.area ≠ msg.area then
      setNb msg.nodeName
        { nb with
          state := (getNextState nb.state .NEGOTIATION_FAILURE).getD nb.state
          negotiateTimer := false
          negotiateHoldTimer := false } s
    else
      neighborUpWrapper msg.nodeName
        { nb with state := (getNextState nb.state .HANDSHAKE_RCVD).getD nb.state } s
  else
    let nb := { nb with area := cfg.kDefaultArea }
    let s := setNb msg.nodeName nb s
    neighborUpWrapper msg.nodeName
      { nb with state := (getNextState nb.state .HANDSHAKE_RCVD).getD nb.state } s

/-- The body of `Spark::processHandshakeMsg` after the targeted-name
check. -/
def processHandshakeMsgBody (cfg : SparkConfig) (msg : SparkHandshakeMsg)
    (sendOk : Bool) (s : SparkState) : SparkState :=
  if ¬ s.tracked then s
  else
    match s.neighbors msg.nodeName with
    | none => s
    | some nb =>
      let s :=
        if ¬ msg.isAdjEstablished then
          sendHandshakeMsg cfg (decide (nb.state ≠ .NEGOTIATE)) sendOk s
        else s
      -- a present heartbeatHoldTimer is re-armed here (no field change)
      if nb.state ≠ .NEGOTIATE then s
      else handshakeNegotiate cfg msg nb s

/-- `Spark::processHandshakeMsg`: a handshake targeted at another node
is ignored. -/
def processHandshakeMsg (cfg : SparkConfig) (msg : SparkHandshakeMsg)
    (sendOk : Bool) (s : SparkState) : SparkState :=
  match msg.neighborNodeName with
  | some t =>
      if t ≠ cfg.myNodeName then s else processHandshakeMsgBody cfg msg sendOk s
  | none => processHandshakeMsgBody cfg msg sendOk s

/-- `Spark::processHeartbeatMsg`: unknown neighbor or state other than
`ESTABLISHED` is ignored; otherwise the heartbeat hold timer is
re-armed (a null timer would be dereferenced: `none`). -/
def processHeartbeatMsg (cfg : SparkConfig) (msg : SparkHeartbeatMsg)
    (s : SparkState) : Option SparkState :=
  if ¬ s.tracked then some s
  else
    match s.neighbors msg.nodeName with
    | none => some s
    | some nb =>
        if nb.state ≠ .ESTABLISHED then some s
        else if nb.heartbeatHoldTimer then some s
        else none

/-- `Spark::processHeartbeatTimeout`: the neighbor must exist and must
be `ESTABLISHED` (`CHECK`), transition to `IDLE`, bring the
neighborship down and erase neighbor and label. -/
def processHeartbeatTimeout (neighborName : String) (s : SparkState) :
    Option SparkState :=
  match s.neighbors neighborName with
  | none => none
  | some nb =>
      if nb.state = .ESTABLISHED then
        let nb2 := { nb with
          state := (getNextState nb.state .HEARTBEAT_TIMER_EXPIRE).getD nb.state
          heartbeatHoldTimer := false }
        let s := setNb neighborName nb2 s
        let s := neighborDownWrapper neighborName s
        some (eraseNb neighborName
          { s with allocatedLabels := s.allocatedLabels.filter (fun x => x != nb.label) })
      else none

/-- `Spark::processNegotiateTimeout`: the neighbor must be in
`NEGOTIATE` (`CHECK`), transition to `WARM`, stop the periodic
handshake timer. -/
def processNegotiateTimeout (neighborName : String) (s : SparkState) :
    Option SparkState :=
  match s.neighbors neighborName with
  | none => none
  | some nb =>
      if nb.state = .NEGOTIATE then
        some (setNb neighborName
          { nb with
            state := (getNextState nb.state .NEGOTIATE_TIMER_EXPIRE).getD nb.state
            negotiateTimer := false
            negotiateHoldTimer := false } s)
      else none

/-- `Spark::processGRTimeout`: the neighbor must be in `RESTART`
(`CHECK`), transition to `IDLE`, bring the neighborship down and erase
neighbor and label. -/
def processGRTimeout (neighborName : String) (s : SparkState) :
    Option SparkState :=
  match s.neighbors neighborName with
  | none => none
  | some nb =>
      if nb.state = .RESTART then
        let nb2 := { nb with
          state := (getNextState nb.state .GR_TIMER_EXPIRE).getD nb.state
          gracefulRestartHoldTimer := false }
        let s := setNb neighborName nb2 s
        let s := neighborDownWrapper neighborName s
        some (eraseNb neighborName
          { s with allocatedLabels := s.allocatedLabels.filter (fun x => x != nb.label) })
      else none

/-- The periodic negotiate-timer callback: send one handshake (the
callback `CHECK`s the neighbor is still present, guaranteed by the
step guard). -/
def negotiateTimerFire (cfg : SparkConfig) (neighborName : String)
    (sendOk : Bool) (s : SparkState) : SparkState :=
  match s.neighbors neighborName with
  | none => s
  | some _ => sendHandshakeMsg cfg false sendOk s

/-- A neighbor of `s` has a given timer armed. -/
def nbFlag (s : SparkState) (n : String) (f : Spark2Neighbor → Bool) : Prop :=
  ∃ nb, s.neighbors n = some nb ∧ f nb = true

/-- The state of the engine slice at startup: interface tracked, no
neighbors, no active entry, no labels. -/
def initState (seq0 : Nat) : SparkState :=
  { tracked := true
    neighbors := fun _ => none
    activeNeighbors := none
    allocatedLabels := []
    mySeqNum := seq0
    counters := fun _ => 0
    events := []
    sentMsgs := [] }

/-- One step of the engine slice: a message is processed, a periodic
timer fires, or a per-neighbor hold timer expires (only while armed;
an aborting handler — `none` — yields no successor). -/
inductive SparkStep (cfg : SparkConfig) : SparkState → SparkState → Prop
  | helloRecv (msg : SparkHelloMsg) (myRecvTimeInUs : Int) (sendOk : Bool)
      (s : SparkState) :
      SparkStep cfg s (processHelloMsg cfg msg myRecvTimeInUs sendOk s)
  | handshakeRecv (msg : SparkHandshakeMsg) (sendOk : Bool) (s : SparkState) :
      SparkStep cfg s (processHandshakeMsg cfg msg sendOk s)
  | heartbeatRecv (msg : SparkHeartbeatMsg) (s s2 : SparkState)
      (h : processHeartbeatMsg cfg msg s = some s2) : SparkStep cfg s s2
  | helloTimerFire (inFastInitState restarting sendOk : Bool) (s : SparkState) :
      SparkStep cfg s (sendHelloMsg cfg inFastInitState restarting sendOk s)
  | heartbeatTimerFire (sendOk : Bool) (s : SparkState) :
      SparkStep cfg s (sendHeartbeatMsg cfg sendOk s)
  | negotiateTimerFired (n : String) (sendOk : Bool) (s : SparkState)
      (harm : nbFlag s n Spark2Neighbor.negotiateTimer) :
      SparkStep cfg s (negotiateTimerFire cfg n sendOk s)
  | heartbeatHoldTimeout (n : String) (s s2 : SparkState)
      (harm : nbFlag s n Spark2Neighbor.heartbeatHoldTimer)
      (h : processHeartbeatTimeout n s = some s2) : SparkStep cfg s s2
  | negotiateHoldTimeout (n : String) (s s2 : SparkState)
      (harm : nbFlag s n Spark2Neighbor.negotiateHoldTimer)
      (h : processNegotiateTimeout n s = some s2) : SparkStep cfg s s2
  | grHoldTimeout (n : String) (s s2 : SparkState)
      (harm : nbFlag s n Spark2Neighbor.gracefulRestartHoldTimer)
      (h : processGRTimeout n s = some s2) : SparkStep cfg s s2

/-- States reachable from startup by processing messages and timer
expirations. -/
def Reach (cfg : SparkConfig) (seq0 : Nat) (s : SparkState) : Prop :=
  Relation.ReflTransGen (SparkStep cfg) (initState seq0) s

/-- The per-neighbor loop of `Spark::deleteInterfaceFromDb` over the
interface's neighbors (`names` enumerates the submap's key set): erase
the neighbor's label from `allocatedLabels_`, `CHECK` the stored
identity fields (an empty one aborts: `none`), and bring the
neighborship down UNLESS the v6 transport address — or, with v4
enabled, the v4 transport address — recorded for the neighbor is
empty, in which case `neighborDownWrapper` is skipped and the name
survives in the active set. -/
def deleteInterfaceLoop (cfg : SparkConfig) :
    List String → SparkState → Option SparkState
  | [], s => some s
  | n :: rest, s =>
      match s.neighbors n with
      | none => deleteInterfaceLoop cfg rest s
      | some nb =>
          let s := { s with
            allocatedLabels := s.allocatedLabels.filter (fun x => x != nb.label) }
          if nb.nodeName = "" ∨ nb.remoteIfName = "" then none
          else
            deleteInterfaceLoop cfg rest
              (if nb.transportAddressV6.isEmpty ∨
                  (cfg.enableV4 ∧ nb.transportAddressV4.isEmpty) then s
                else neighborDownWrapper n s)

/-- `Spark::deleteInterfaceFromDb` restricted to the slice's
interface: run the per-neighbor loop, then erase the whole neighbor
submap, the interface timers and the `interfaceDb_` entry.  The
`ifNameToActiveNeighbors_` entry is NOT cleared wholesale: a name is
removed only by the `neighborDownWrapper` calls of the loop. -/
def deleteInterface (cfg : SparkConfig) (names : List String)
    (s : SparkState) : Option SparkState :=
  (deleteInterfaceLoop cfg names s).map (fun s2 =>
    { s2 with neighbors := fun _ => none, tracked := false })

/-- `Spark::addInterfaceToDb` restricted to the slice's interface: the
interface enters `interfaceDb_` and an empty neighbor-submap
place-holder is created; the hello and heartbeat timers are armed (the
sends themselves happen through the timer steps).
`ifNameToActiveNeighbors_` is not touched. -/
def addInterface (s : SparkState) : SparkState :=
  { s with tracked := true, neighbors := fun _ => none }

/-- An interface-database update affecting the slice's interface:
`processInterfaceUpdates` removes it (the snapshot no longer lists it,
`deleteInterfaceFromDb`) or adds it back (`addInterfaceToDb`).  The
name list iterated by a removal is exactly the submap's key set. -/
inductive IfaceStep (cfg : SparkConfig) : SparkState → SparkState → Prop
  | ifaceDelete (names : List String) (s s2 : SparkState)
      (htr : s.tracked = true)
      (hdom : ∀ n, (s.neighbors n).isSome = true ↔ n ∈ names)
      (hnodup : names.Nodup)
      (h : deleteInterface cfg names s = some s2) : IfaceStep cfg s s2
  | ifaceAdd (s : SparkState) (h : s.tracked = false) :
      IfaceStep cfg s (addInterface s)

/-- A step of the engine slice in the full scope of the claim: a
message/timer step or an interface update. -/
def SparkStepI (cfg : SparkConfig) (s s2 : SparkState) : Prop :=
  SparkStep cfg s s2 ∨ IfaceStep cfg s s2

/-- States reachable from startup by processing messages, timer
expirations and interface updates. -/
def ReachI (cfg : SparkConfig) (seq0 : Nat) (s : SparkState) : Prop :=
  Relation.ReflTransGen (SparkStepI cfg) (initState seq0) s

/-- A CIDR network of an interface snapshot together with its
classification (model of `folly::CIDRNetwork` plus the
`isV4`/`isV6`+`isLinkLocal` tests of the source; the address is its
numeric value, which is what the `std::set` ordering compares). -/
structure IfaceNetwork where
  isV4 : Bool
  isLinkLocal : Bool
  addr : Nat
  prefixLen : Nat
deriving DecidableEq

/-- The strict order on `folly::CIDRNetwork` (lexicographic on address
then prefix length) used by the `std::set`s of
`processInterfaceUpdates`. -/
def cidrLt (a b : IfaceNetwork) : Bool :=
  decide (a.addr < b.addr) ||
    (decide (a.addr = b.addr) && decide (a.prefixLen < b.prefixLen))

/-- `*set.begin()`: the least element of the collected networks. -/
def setMinimum : List IfaceNetwork → Option IfaceNetwork
  | [] => none
  | x :: xs => some (xs.foldl (fun a b => if cidrLt b a then b else a) x)

/-- The placeholder `folly::CIDRNetwork{folly::IPAddress("0.0.0.0"), 32}`. -/
def defaultV4Network : IfaceNetwork :=
  { isV4 := true, isLinkLocal := false, addr := 0, prefixLen := 32 }

/-- The per-interface body of `Spark::processInterfaceUpdates`: decide
whether one snapshot entry becomes a tracked interface and, when it
does, which v4 and v6 link-local networks are selected. -/
def processInterfaceEntry (enableV4 isUp : Bool)
    (networks : List IfaceNetwork) : Option (IfaceNetwork × IfaceNetwork) :=
  let v4Networks := networks.filter (fun n => n.isV4)
  let v6LinkLocalNetworks := networks.filter (fun n => !n.isV4 && n.isLinkLocal)
  if ¬ isUp then none
  else if v6LinkLocalNetworks.isEmpty then none
  else if enableV4 && v4Networks.isEmpty then none
  else
    match setMinimum v6LinkLocalNetworks with
    | none => none
    | some v6LinkLocalNetwork =>
        let v4Network :=
          if enableV4 then (setMinimum v4Networks).getD defaultV4Network
          else defaultV4Network
        some (v4Network, v6LinkLocalNetwork)

/-- A state is in the active set exactly when it keeps the neighbor
adjacent: `ESTABLISHED`, and also `RESTART` (graceful restart does not
remove the neighbor from `ifNameToActiveNeighbors_`). -/
def activeClass (st : SparkNeighState) : Prop :=
  st = .ESTABLISHED ∨ st = .RESTART

instance (st : SparkNeighState) : Decidable (activeClass st) := by
  unfold activeClass
  exact inferInstance

/-- The active-set invariant the engine slice maintains: active names
are tracked neighbors, and a tracked neighbor is active exactly when
its state is `ESTABLISHED` or `RESTART`. -/
def Inv (s : SparkState) : Prop :=
  (∀ n, isActive s n → (s.neighbors n).isSome) ∧
  (∀ n nb, s.neighbors n = some nb → (isActive s n ↔ activeClass nb.state))

/-- The part of the active-set invariant that survives interface
updates: a stored neighbor whose state is `ESTABLISHED` or `RESTART`
is in the active set.  (The converse fails once interfaces are
deleted: `deleteInterfaceFromDb` can strand a name in
`ifNameToActiveNeighbors_`.) -/
def InvF (s : SparkState) : Prop :=
  ∀ n nb, s.neighbors n = some nb → activeClass nb.state → isActive s n

/-- A concrete configuration for the executable scenarios: node "A" in
domain "D" on interface "e0" (ifIndex 1), V4 disabled, default area
"z" matched by a catch-all row, label range [100, 199]. -/
def cfg0 : SparkConfig :=
  { myDomainName := "D"
    myNodeName := "A"
    lowestSupportedVersion := 1
    enableV4 := false
    ifName := "e0"
    ifIndex := 1
    myV4Addr := 0
    myV4PrefixLen := 32
    kSrFirst := 100
    kSrSecond := 199
    kDefaultArea := "z"
    myHeartbeatHoldTime := 3
    myHoldTime := 10
    areaIdRegexList := [("z", some (fun _ => true), some (fun _ => true))] }

/-- Scenario: first HELLO from neighbor "B" (no reflected info). -/
def helloB1 : SparkHelloMsg :=
  { domainName := "D"
    nodeName := "B"
    ifName := "e9"
    seqNum := 1
    version := 1
    solicitResponse := false
    restarting := false
    sentTsInUs := 0
    neighborInfos := [] }

/-- Scenario: second HELLO from "B", now reflecting "A" with a seen
sequence number below ours. -/
def helloB2 : SparkHelloMsg :=
  { helloB1 with
    seqNum := 2
    neighborInfos :=
      [("A", { seqNum := 2, lastNbrMsgSentTsInUs := 0, lastMyMsgRcvdTsInUs := 0 })] }

/-- Scenario: handshake from "B" (adjacency already formed on its
side, so no reply is solicited). -/
def hsB : SparkHandshakeMsg :=
  { nodeName := "B"
    isAdjEstablished := true
    holdTime := 3
    gracefulRestartTime := 10
    transportAddressV6 := [1, 2]
    transportAddressV4 := []
    openrCtrlThriftPort := 0
    kvStoreCmdPort := 0
    area := "z"
    neighborNodeName := some "A" }

/-- Scenario: HELLO from "B" carrying the restarting flag. -/
def helloB3 : SparkHelloMsg :=
  { helloB1 with seqNum := 3, restarting := true }

/-- Scenario states: "B" is created and warms up, negotiates, reaches
`ESTABLISHED`, then announces a graceful restart. -/
def c3s1 : SparkState := processHelloMsg cfg0 helloB1 0 false (initState 10)

def c3s2 : SparkState := processHelloMsg cfg0 helloB2 0 false c3s1

def c3s3 : SparkState := processHandshakeMsg cfg0 hsB false c3s2

def c3s4 : SparkState := processHelloMsg cfg0 helloB3 0 false c3s3

/-- A neighbor sitting in `RESTART` with recorded seqNum 5 (as after a
received graceful-restart HELLO). -/
def nbRestart : Spark2Neighbor :=
  { Spark2Neighbor.create "D" "B" "e9" 101 5 "z" with
    state := .RESTART
    gracefulRestartHoldTimer := true }

/-- An engine state tracking `nbRestart` (still in the active set, as
`processGRMsg` leaves it there). -/
def sRestart : SparkState :=
  { initState 10 with
    neighbors := fun m => if m = "B" then some nbRestart else none
    activeNeighbors := some ["B"] }

/-- A reflecting HELLO from "B" in `RESTART` whose seqNum 6 is
strictly greater than the recorded 5. -/
def helloC1 : SparkHelloMsg :=
  { domainName := "D"
    nodeName := "B"
    ifName := "e9"
    seqNum := 6
    version := 1
    solicitResponse := false
    restarting := false
    sentTsInUs := 7
    neighborInfos :=
      [("A", { seqNum := 1, lastNbrMsgSentTsInUs := 0, lastMyMsgRcvdTsInUs := 0 })] }

/-- A fresh neighbor used to exercise the RTT pipeline. -/
def nbRtt : Spark2Neighbor := Spark2Neighbor.create "D" "B" "e9" 101 5 "z"

/-- Scenario: a handshake from "B" whose v6 transport address is
empty — `deleteInterfaceFromDb` will later skip `neighborDownWrapper`
for the resulting neighbor. -/
def hsBE : SparkHandshakeMsg := { hsB with transportAddressV6 := [] }

/-- Stale-active-name scenario: "B" reaches `ESTABLISHED` via the
empty-address handshake. -/
def c3t3 : SparkState := processHandshakeMsg cfg0 hsBE false c3s2

/-- The interface is removed: the loop skips `neighborDownWrapper`
for "B" (empty v6 transport address), so "B" survives in the active
set while the whole neighbor submap is dropped. -/
def c3t4 : SparkState := (deleteInterface cfg0 ["B"] c3t3).getD (initState 0)

/-- The interface comes back: empty neighbor submap, stale active
entry. -/
def c3t5 : SparkState := addInterface c3t4

/-- "B" is rediscovered: it is created afresh and moves to `WARM`,
while its name is still in the active set. -/
def c3t6 : SparkState := processHelloMsg cfg0 helloB1 0 false c3t5

/-! ### Lemmas about the state operations -/

theorem bumpCounter_neighbors (key : String) (s : SparkState) :
    (bumpCounter key s).neighbors = s.neighbors := rfl

theorem bumpOpt_neighbors (k : Option String) (s : SparkState) :
    (bumpOpt k s).neighbors = s.neighbors := by
  cases k <;> rfl

theorem bumpOpt_activeNeighbors (k : Option String) (s : SparkState) :
    (bumpOpt k s).activeNeighbors = s.activeNeighbors := by
  cases k <;> rfl

theorem bumpOpt_events (k : Option String) (s : SparkState) :
    (bumpOpt k s).events = s.events := by
  cases k <;> rfl

theorem bumpOpt_mySeqNum (k : Option String) (s : SparkState) :
    (bumpOpt k s).mySeqNum = s.mySeqNum := by
  cases k <;> rfl

theorem bumpOpt_tracked (k : Option String) (s : SparkState) :
    (bumpOpt k s).tracked = s.tracked := by
  cases k <;> rfl

theorem bumpOpt_allocatedLabels (k : Option String) (s : SparkState) :
    (bumpOpt k s).allocatedLabels = s.allocatedLabels := by
  cases k <;> rfl

/-! ### C2: the transition table -/

/-- C2: the neighbor state-transition function realizes exactly the
table of spec §4.4: every one of the twelve listed (state, event)
pairs maps to the listed next state, and every pair not listed has no
entry (the event is not accepted in that state and is dropped by the
engine's dispatch guards). -/
theorem C2_transition_table_exact :
    ∀ st ev, getNextState st ev = specTransitionTable st ev := by
  intro st ev
  cases st <;> cases ev <;> rfl

/-! ### C10: skipped heartbeats still advance mySeqNum -/

/-- C10: calling `sendHeartbeatMsg` on an interface with no active
(ESTABLISHED) neighbor changes nothing — no packet is handed to the
socket, no counter moves — except that `mySeqNum` is incremented by
exactly one, because the `SCOPE_EXIT` increment is installed before the
skip check. -/
theorem C10_skipped_heartbeat_increments_seqnum (cfg : SparkConfig)
    (sendOk : Bool) (s : SparkState) (h : s.activeNeighbors = none) :
    sendHeartbeatMsg cfg sendOk s = { s with mySeqNum := s.mySeqNum + 1 } := by
  simp [sendHeartbeatMsg, h]

/-- Witness for C10 at a concrete state. -/
theorem C10_skipped_heartbeat_increments_seqnum_witness :
    sendHeartbeatMsg cfg0 true (initState 10) = { initState 10 with mySeqNum := 11 } :=
  C10_skipped_heartbeat_increments_seqnum cfg0 true (initState 10) rfl

/-! ### C8: label allocation -/

/-- Soundness of the downward probe: the returned label is below the
start, free, gets recorded, and everything strictly between it and the
start is taken. -/
theorem probeDownAux_sound :
    ∀ (fuel : Nat) (label res : Int) (alloc alloc2 : List Int),
      probeDownAux fuel label alloc = some (res, alloc2) →
      res ≤ label ∧ res ∉ alloc ∧ alloc2 = res :: alloc ∧
        ∀ m : Int, res < m → m ≤ label → m ∈ alloc := by
  intro fuel
  induction fuel with
  | zero => intro label res alloc alloc2 h; simp [probeDownAux] at h
  | succ k ih =>
      intro label res alloc alloc2 h
      rw [probeDownAux] at h
      by_cases hm : label ∈ alloc
      · rw [if_pos hm] at h
        obtain ⟨h1, h2, h3, h4⟩ := ih (label - 1) res alloc alloc2 h
        refine ⟨by omega, h2, h3, fun m hm1 hm2 => ?_⟩
        rcases lt_or_eq_of_le hm2 with hlt | heq
        · exact h4 m hm1 (by omega)
        · exact heq ▸ hm
      · rw [if_neg hm] at h
        simp only [Option.some.injEq, Prod.mk.injEq] at h
        obtain ⟨rfl, rfl⟩ := h
        exact ⟨le_refl _, hm, rfl, fun m h1 h2 => absurd (lt_of_lt_of_le h1 h2) (lt_irrefl _)⟩

/-- Filtering by the weaker bound keeps at least as many elements. -/
theorem filter_le_length_mono (alloc : List Int) (label : Int) :
    (alloc.filter (fun x => decide (x ≤ label - 1))).length ≤
      (alloc.filter (fun x => decide (x ≤ label))).length := by
  induction alloc with
  | nil => simp
  | cons a t ih =>
      by_cases h1 : a ≤ label - 1
      · have h2 : a ≤ label := by omega
        simp [List.filter_cons, h1, h2]
        omega
      · by_cases h2 : a ≤ label
        · simp [List.filter_cons, h1, h2]
          omega
        · simp [List.filter_cons, h1, h2]
          exact ih

/-- When `label` itself is allocated, lowering the bound by one loses
at least one element. -/
theorem filter_le_length_strict (alloc : List Int) (label : Int)
    (h : label ∈ alloc) :
    (alloc.filter (fun x => decide (x ≤ label - 1))).length <
      (alloc.filter (fun x => decide (x ≤ label))).length := by
  induction alloc with
  | nil => simp at h
  | cons a t ih =>
      rcases List.mem_cons.mp h with heq | hmem
      · have h1 : ¬ (a ≤ label - 1) := by omega
        have h2 : a ≤ label := by omega
        simp [List.filter_cons, h1, h2]
        exact Nat.lt_succ_of_le (filter_le_length_mono t label)
      · by_cases h1 : a ≤ label - 1
        · have h2 : a ≤ label := by omega
          simp [List.filter_cons, h1, h2]
          exact ih hmem
        · by_cases h2 : a ≤ label
          · simp [List.filter_cons, h1, h2]
            exact Nat.lt_succ_of_lt (ih hmem)
          · simp [List.filter_cons, h1, h2]
            exact ih hmem

/-- With enough fuel the probe loop terminates (each failing step
consumes one allocated value at or below the current label). -/
theorem probeDownAux_isSome :
    ∀ (fuel : Nat) (label : Int) (alloc : List Int),
      (alloc.filter (fun x => decide (x ≤ label))).length < fuel →
      (probeDownAux fuel label alloc).isSome = true := by
  intro fuel
  induction fuel with
  | zero => intro label alloc h; omega
  | succ k ih =>
      intro label alloc h
      rw [probeDownAux]
      by_cases hm : label ∈ alloc
      · rw [if_pos hm]
        exact ih (label - 1) alloc
          (lt_of_lt_of_le (filter_le_length_strict alloc label hm)
            (Nat.lt_succ_iff.mp h))
      · rw [if_neg hm]
        rfl

/-- C8 counterexample: with range [100, 199] and ifIndex 150, the
first-attempt label 100 + 150 = 250 is free, so it is returned —
outside the inclusive range, against the claim that allocation always
yields a label within it. -/
theorem C8_label_range_counterexample :
    getNewLabelForIface 100 199 [] 150 = .ok 250 [250] ∧
      ¬ ((100 : Int) ≤ 250 ∧ (250 : Int) ≤ 199) :=
  ⟨by decide, by decide⟩

/-- C8 amended: the returned label is always fresh and recorded in
`allocatedLabels` (so live labels stay unique); the first attempt
`kSrLocalRange.first + ifIndex` is returned whenever free, with no
range check (it lies in the range only when `ifIndex ≤
kSrLocalRange.second − kSrLocalRange.first`); when it is taken, the
allocator probes DOWNWARD from `kSrLocalRange.second` and the
fallback result is the LARGEST unallocated label `≤
kSrLocalRange.second` (every label strictly above it up to the top of
the range is taken) and lies within the range; the runtime error
(`MPLS_LABEL_ALLOCATION_FAILURE`) is raised exactly when the first
attempt is taken and every label of the range is allocated.  The fuel
bound of the model is never hit. -/
theorem C8_label_allocation_amended (kSrFirst kSrSecond : Int)
    (alloc : List Int) (ifIndex : Int) :
    (getNewLabelForIface kSrFirst kSrSecond alloc ifIndex ≠ .fuelOut) ∧
    (∀ lab alloc2,
        getNewLabelForIface kSrFirst kSrSecond alloc ifIndex = .ok lab alloc2 →
        lab ∉ alloc ∧ alloc2 = lab :: alloc) ∧
    (kSrFirst + ifIndex ∉ alloc →
        getNewLabelForIface kSrFirst kSrSecond alloc ifIndex =
          .ok (kSrFirst + ifIndex) ((kSrFirst + ifIndex) :: alloc)) ∧
    (kSrFirst + ifIndex ∈ alloc →
        ∀ lab alloc2,
          getNewLabelForIface kSrFirst kSrSecond alloc ifIndex = .ok lab alloc2 →
          kSrFirst ≤ lab ∧ lab ≤ kSrSecond ∧
            ∀ m : Int, lab < m → m ≤ kSrSecond → m ∈ alloc) ∧
    ((kSrFirst + ifIndex ∈ alloc ∧
        ∀ m : Int, kSrFirst ≤ m → m ≤ kSrSecond → m ∈ alloc) →
        ∃ alloc2,
          getNewLabelForIface kSrFirst kSrSecond alloc ifIndex =
            .exhausted alloc2) ∧
    (∀ alloc2,
        getNewLabelForIface kSrFirst kSrSecond alloc ifIndex =
          .exhausted alloc2 →
        kSrFirst + ifIndex ∈ alloc ∧
          ∀ m : Int, kSrFirst ≤ m → m ≤ kSrSecond → m ∈ alloc) := by
  have hfuel : (alloc.filter (fun x => decide (x ≤ kSrSecond))).length <
      alloc.length + 1 :=
    Nat.lt_succ_of_le (List.length_filter_le _ _)
  have hps := probeDownAux_isSome (alloc.length + 1) kSrSecond alloc hfuel
  by_cases hmem : kSrFirst + ifIndex ∈ alloc
  · cases h2 : probeDownAux (alloc.length + 1) kSrSecond alloc with
    | none => rw [h2] at hps; simp at hps
    | some p =>
        obtain ⟨res, alloc2⟩ := p
        obtain ⟨hr1, hr2, hr3, hr4⟩ := probeDownAux_sound _ _ _ _ _ h2
        have hunf : getNewLabelForIface kSrFirst kSrSecond alloc ifIndex =
            (if res < kSrFirst then .exhausted alloc2 else .ok res alloc2) := by
          unfold getNewLabelForIface
          rw [if_pos hmem, h2]
        by_cases hlt : res < kSrFirst
        · rw [if_pos hlt] at hunf
          refine ⟨?_, ?_, ?_, ?_, ?_, ?_⟩
          · rw [hunf]
            intro hc
            cases hc
          · intro lab al2 hok
            rw [hunf] at hok
            cases hok
          · intro hc
            exact absurd hmem hc
          · intro _ lab al2 hok
            rw [hunf] at hok
            cases hok
          · intro _
            exact ⟨alloc2, hunf⟩
          · intro al hx
            refine ⟨hmem, fun m hm1 hm2 => hr4 m (lt_of_lt_of_le hlt hm1) hm2⟩
        · rw [if_neg hlt] at hunf
          refine ⟨?_, ?_, ?_, ?_, ?_, ?_⟩
          · rw [hunf]
            intro hc
            cases hc
          · intro lab al2 hok
            rw [hunf] at hok
            cases hok
            exact ⟨hr2, hr3⟩
          · intro hc
            exact absurd hmem hc
          · intro _ lab al2 hok
            rw [hunf] at hok
            cases hok
            exact ⟨not_lt.mp hlt, hr1, hr4⟩
          · rintro ⟨_, hall⟩
            exact absurd (hall res (not_lt.mp hlt) hr1) hr2
          · intro al hx
            rw [hunf] at hx
            cases hx
  · have hunf : getNewLabelForIface kSrFirst kSrSecond alloc ifIndex =
        .ok (kSrFirst + ifIndex) ((kSrFirst + ifIndex) :: alloc) := by
      unfold getNewLabelForIface
      rw [if_neg hmem]
    refine ⟨?_, ?_, fun _ => hunf, ?_, ?_, ?_⟩
    · rw [hunf]
      intro hc
      cases hc
    · intro lab al2 hok
      rw [hunf] at hok
      cases hok
      exact ⟨hmem, rfl⟩
    · intro hc
      exact absurd hc hmem
    · rintro ⟨hc, _⟩
      exact absurd hc hmem
    · intro al hx
      rw [hunf] at hx
      cases hx

/-- Witness for C8 at concrete inputs: with [100, 199], labels 101 and
199 allocated and ifIndex 1, the first attempt 101 is taken and the
probe returns 198, which is fresh, recorded, and in range. -/
theorem C8_label_allocation_amended_witness :
    getNewLabelForIface 100 199 [101, 199] 1 = .ok 198 [198, 101, 199] ∧
      (198 : Int) ∉ [(101 : Int), 199] ∧ (100 : Int) ≤ 198 ∧ (198 : Int) ≤ 199 := by
  have h := C8_label_allocation_amended 100 199 [101, 199] 1
  have hmem : (100 : Int) + 1 ∈ [(101 : Int), 199] := by decide
  have hok : getNewLabelForIface 100 199 [101, 199] 1 = .ok 198 [198, 101, 199] := by decide
  obtain ⟨hf, hfresh, hfirst, hrange, hex, hexc⟩ := h
  obtain ⟨h1, h2, h3⟩ := hrange hmem 198 [198, 101, 199] hok
  obtain ⟨h4, h5⟩ := hfresh 198 [198, 101, 199] hok
  exact ⟨hok, h4, h1, h2⟩

/-! ### C4: the RTT pipeline -/

/-- C4 (refuting the discard of negative samples): whenever the
timestamp preconditions hold, the sample is ALWAYS fed to the step
detector and `rttLatest` is ALWAYS updated — with the value
`max((rawRtt / 1000) * 1000, 1000)`.  The clamp to at least 1000us is
applied before the negativity guard, so the guard is unreachable and a
negative raw RTT is fed as 1000us instead of being discarded. -/
theorem C4_rtt_negative_sample_fed
    (myRecvTime mySentTime nbrRecvTime nbrSentTime : Int) (nb : Spark2Neighbor)
    (h1 : mySentTime ≠ 0) (h2 : nbrRecvTime ≠ 0)
    (h3 : nbrRecvTime ≤ nbrSentTime) (h4 : mySentTime ≤ myRecvTime) :
    (updateNeighborRtt myRecvTime mySentTime nbrRecvTime nbrSentTime nb).1 =
      some (max (Int.tdiv ((myRecvTime - mySentTime) - (nbrSentTime - nbrRecvTime)) 1000 * 1000) 1000) ∧
    ((updateNeighborRtt myRecvTime mySentTime nbrRecvTime nbrSentTime nb).2).rttLatest =
      max (Int.tdiv ((myRecvTime - mySentTime) - (nbrSentTime - nbrRecvTime)) 1000 * 1000) 1000 := by
  have hguard : ¬ (max (Int.tdiv ((myRecvTime - mySentTime) - (nbrSentTime - nbrRecvTime)) 1000 * 1000) 1000 < 0) := by
    have := le_max_right (Int.tdiv ((myRecvTime - mySentTime) - (nbrSentTime - nbrRecvTime)) 1000 * 1000) (1000 : Int)
    omega
  unfold updateNeighborRtt
  rw [if_neg (by tauto), if_neg (not_lt.mpr h3), if_neg (not_lt.mpr h4),
    if_neg hguard]
  constructor
  · rfl
  · rfl

/-- Witness for C4 at the failing input of the claim: raw RTT is
(1001000 − 1000000) − (5002000 − 5000000) = −1000 < 0, yet the sample
is fed as 1000us and `rttLatest` is set to 1000. -/
theorem C4_rtt_negative_sample_fed_witness :
    (updateNeighborRtt 1001000 1000000 5000000 5002000 nbRtt).1 = some 1000 ∧
    ((updateNeighborRtt 1001000 1000000 5000000 5002000 nbRtt).2).rttLatest = 1000 ∧
    ((1001000 : Int) - 1000000) - (5002000 - 5000000) < 0 := by
  have h := C4_rtt_negative_sample_fed 1001000 1000000 5000000 5002000 nbRtt
    (by decide) (by decide) (by decide) (by decide)
  refine ⟨h.1.trans (by decide), h.2.trans (by decide), by decide⟩

/-! ### C6: packet sanity checks -/

/-- C6: the three sanity checks are applied in order — looped packet
first, then domain, then version — each rejection returning exactly
its counter; and a HELLO failing sanity leaves the engine state
untouched except for that counter: no neighbor is created, no state,
event, packet or sequence-number change. -/
theorem C6_hello_sanity_checks (myNodeName myDomainName : String)
    (lowest : Nat) (domainName neighborName : String) (version : Nat) :
    (sanityCheckHelloPkt myNodeName myDomainName lowest domainName neighborName version =
        (.SKIP_LOOPED_SELF, some "spark.invalid_keepalive.looped_packet") ↔
      neighborName = myNodeName) ∧
    (sanityCheckHelloPkt myNodeName myDomainName lowest domainName neighborName version =
        (.FAILURE, some "spark.invalid_keepalive.different_domain") ↔
      (neighborName ≠ myNodeName ∧ domainName ≠ myDomainName)) ∧
    (sanityCheckHelloPkt myNodeName myDomainName lowest domainName neighborName version =
        (.FAILURE, some "spark.invalid_keepalive.invalid_version") ↔
      (neighborName ≠ myNodeName ∧ domainName = myDomainName ∧ version < lowest)) ∧
    (sanityCheckHelloPkt myNodeName myDomainName lowest domainName neighborName version =
        (.SUCCESS, none) ↔
      (neighborName ≠ myNodeName ∧ domainName = myDomainName ∧ lowest ≤ version)) ∧
    (∀ (cfg : SparkConfig) (msg : SparkHelloMsg) (t : Int) (sendOk : Bool)
        (s : SparkState),
      (sanityCheckHelloPkt cfg.myNodeName cfg.myDomainName
          cfg.lowestSupportedVersion msg.domainName msg.nodeName msg.version).1 ≠
        .SUCCESS →
      processHelloMsg cfg msg t sendOk s =
        if s.tracked then
          bumpOpt (sanityCheckHelloPkt cfg.myNodeName cfg.myDomainName
            cfg.lowestSupportedVersion msg.domainName msg.nodeName msg.version).2 s
        else s) := by
  refine ⟨?_, ?_, ?_, ?_, ?_⟩
  · unfold sanityCheckHelloPkt
    split_ifs with hA hB hC <;> simp_all
  · unfold sanityCheckHelloPkt
    split_ifs with hA hB hC <;> simp_all
  · unfold sanityCheckHelloPkt
    split_ifs with hA hB hC <;> simp_all
  · unfold sanityCheckHelloPkt
    split_ifs with hA hB hC <;> simp_all
  · intro cfg msg t sendOk s hfail
    by_cases htr : s.tracked
    · simp [processHelloMsg, htr, hfail]
    · simp [processHelloMsg, htr]

/-- Witness for C6: a self-looped HELLO (nodeName "A" equals ours)
bumps only the looped-packet counter and changes nothing else. -/
theorem C6_hello_sanity_checks_witness :
    (sanityCheckHelloPkt "A" "D" 1 "D" "A" 1 =
      (.SKIP_LOOPED_SELF, some "spark.invalid_keepalive.looped_packet")) ∧
    processHelloMsg cfg0 { helloB1 with nodeName := "A" } 0 false (initState 10) =
      bumpOpt (some "spark.invalid_keepalive.looped_packet") (initState 10) := by
  have h := C6_hello_sanity_checks "A" "D" 1 "D" "A" 1
  refine ⟨h.1.mpr rfl, ?_⟩
  have h2 := h.2.2.2.2 cfg0 { helloB1 with nodeName := "A" } 0 false (initState 10)
    (by decide)
  rw [h2]
  rfl

/-! ### C7: area resolution -/

/-- C7: a row with both regex sets matches iff both the peer node name
and the local interface name match; a row with a single set matches on
that single test; a resolution with zero matching rows or several
matching rows refuses the neighbor with its dedicated counter, and only
a unique matching row yields its areaId; a refused resolution creates
no neighbor. -/
theorem C7_area_resolution (peer localIf : String) (rows : List AreaRow) :
    (∀ (aid : String) (nre ire : String → Bool),
        rowMatches peer localIf (aid, some nre, some ire) =
          (nre peer && ire localIf) ∧
        rowMatches peer localIf (aid, some nre, none) = nre peer ∧
        rowMatches peer localIf (aid, none, some ire) = ire localIf) ∧
    (rows.filter (rowMatches peer localIf) = [] →
      getNeighborArea peer localIf rows = (none, some "spark.neighbor_no_area")) ∧
    (1 < (rows.filter (rowMatches peer localIf)).length →
      getNeighborArea peer localIf rows =
        (none, some "spark.neighbor_multiple_area")) ∧
    (∀ row, rows.filter (rowMatches peer localIf) = [row] →
      getNeighborArea peer localIf rows = (some row.1, none)) ∧
    (∀ (cfg : SparkConfig) (msg : SparkHelloMsg) (t : Int) (sendOk : Bool)
        (s : SparkState),
      s.neighbors msg.nodeName = none →
      (getNeighborArea msg.nodeName cfg.ifName cfg.areaIdRegexList).1 = none →
      ∀ m, (processHelloMsg cfg msg t sendOk s).neighbors m = s.neighbors m) := by
  refine ⟨fun aid nre ire => ⟨rfl, rfl, rfl⟩, ?_, ?_, ?_, ?_⟩
  · intro hnil
    unfold getNeighborArea
    rw [hnil]
    rfl
  · intro hlen
    unfold getNeighborArea
    have hne : ¬ ((rows.filter (rowMatches peer localIf)).map (fun r => r.1)).isEmpty = true := by
      rw [List.isEmpty_iff, List.map_eq_nil_iff]
      intro hc
      rw [hc] at hlen
      simp at hlen
    rw [if_neg hne, if_pos (by rw [List.length_map]; exact hlen)]
  · intro row hrow
    unfold getNeighborArea
    rw [hrow]
    rfl
  · intro cfg msg t sendOk s hnone harea m
    by_cases htr : s.tracked
    · by_cases hok : (sanityCheckHelloPkt cfg.myNodeName cfg.myDomainName
          cfg.lowestSupportedVersion msg.domainName msg.nodeName msg.version).1 ≠
          PacketValidationResult.SUCCESS
      · simp [processHelloMsg, htr, hok, bumpOpt_neighbors]
      · simp [processHelloMsg, htr, hok, hnone, harea, bumpOpt_neighbors]
    · simp [processHelloMsg, htr]

/-- Witness for C7: with a table whose two rows both match peer "B" on
interface "e0", resolution is refused with the multiple-area counter,
and a HELLO from an unknown "B" creates no neighbor. -/
theorem C7_area_resolution_witness :
    getNeighborArea "B" "e0"
        [("x", some (fun _ => true), none), ("y", none, some (fun _ => true))] =
      (none, some "spark.neighbor_multiple_area") ∧
    (processHelloMsg
        { cfg0 with areaIdRegexList :=
            [("x", some (fun _ => true), none), ("y", none, some (fun _ => true))] }
        helloB1 0 false (initState 10)).neighbors "B" = none := by
  have h := C7_area_resolution "B" "e0"
    [("x", some (fun _ => true), none), ("y", none, some (fun _ => true))]
  have hmul := h.2.2.1 (by decide)
  refine ⟨hmul, ?_⟩
  have href := h.2.2.2.2
    { cfg0 with areaIdRegexList :=
        [("x", some (fun _ => true), none), ("y", none, some (fun _ => true))] }
    helloB1 0 false (initState 10) rfl (by decide)
  rw [href "B"]
  rfl

/-! ### C9: interface filtering and address selection -/

/-- The CIDR order is transitive. -/
theorem cidrLt_trans {a b c : IfaceNetwork} (h1 : cidrLt a b = true)
    (h2 : cidrLt b c = true) : cidrLt a c = true := by
  simp only [cidrLt, Bool.or_eq_true, Bool.and_eq_true, decide_eq_true_eq] at *
  omega

/-- The reflexive closure of the CIDR order is transitive. -/
theorem cidrLt_false_trans {a b c : IfaceNetwork} (h1 : cidrLt a b = false)
    (h2 : cidrLt b c = false) : cidrLt a c = false := by
  simp only [cidrLt, Bool.or_eq_false_iff, Bool.and_eq_false_iff,
    decide_eq_false_iff_not, decide_eq_true_eq] at *
  omega

/-- The running fold of `setMinimum` stays among the seen elements and
below all of them. -/
theorem foldl_cidrMin_spec (l : List IfaceNetwork) :
    ∀ acc : IfaceNetwork,
      (l.foldl (fun a b => if cidrLt b a then b else a) acc = acc ∨
        l.foldl (fun a b => if cidrLt b a then b else a) acc ∈ l) ∧
      ∀ y, (y = acc ∨ y ∈ l) →
        cidrLt y (l.foldl (fun a b => if cidrLt b a then b else a) acc) = false := by
  induction l with
  | nil =>
      intro acc
      refine ⟨Or.inl rfl, fun y hy => ?_⟩
      rcases hy with heq | hmem
      · subst heq
        simp only [List.foldl_nil, cidrLt]
        simp
      · simp at hmem
  | cons b t ih =>
      intro acc
      simp only [List.foldl_cons]
      by_cases hb : cidrLt b acc = true
      · rw [if_pos hb]
        obtain ⟨hm, hmin⟩ := ih b
        constructor
        · rcases hm with heq | hmem
          · right
            rw [heq]
            exact List.mem_cons_self b t
          · exact Or.inr (List.mem_cons_of_mem b hmem)
        · intro y hy
          rcases hy with heq | hmem
          · subst heq
            have hres := hmin b (Or.inl rfl)
            cases hacc : cidrLt y (t.foldl (fun a c => if cidrLt c a then c else a) b) with
            | false => rfl
            | true =>
                rw [cidrLt_trans hb hacc] at hres
                cases hres
          · rcases List.mem_cons.mp hmem with heq2 | hmem2
            · exact heq2 ▸ hmin b (Or.inl rfl)
            · exact hmin y (Or.inr hmem2)
      · rw [if_neg hb]
        rw [Bool.not_eq_true] at hb
        obtain ⟨hm, hmin⟩ := ih acc
        constructor
        · rcases hm with heq | hmem
          · exact Or.inl heq
          · exact Or.inr (List.mem_cons_of_mem b hmem)
        · intro y hy
          rcases hy with heq | hmem
          · exact hmin y (Or.inl heq)
          · rcases List.mem_cons.mp hmem with heq2 | hmem2
            · subst heq2
              exact cidrLt_false_trans hb (hmin acc (Or.inl rfl))
            · exact hmin y (Or.inr hmem2)

/-- `*set.begin()` really is the least element. -/
theorem setMinimum_spec (l : List IfaceNetwork) (m : IfaceNetwork)
    (h : setMinimum l = some m) : m ∈ l ∧ ∀ y ∈ l, cidrLt y m = false := by
  cases l with
  | nil => simp [setMinimum] at h
  | cons x xs =>
      simp only [setMinimum, Option.some.injEq] at h
      obtain ⟨hm, hmin⟩ := foldl_cidrMin_spec xs x
      subst h
      constructor
      · rcases hm with heq | hmem
        · rw [heq]
          exact List.mem_cons_self x xs
        · exact List.mem_cons_of_mem x hmem
      · intro y hy
        rcases List.mem_cons.mp hy with heq | hmem
        · exact hmin y (Or.inl heq)
        · exact hmin y (Or.inr hmem)

/-- A nonempty collection has a minimum. -/
theorem setMinimum_isSome (l : List IfaceNetwork) (h : l ≠ []) :
    ∃ m, setMinimum l = some m := by
  cases l with
  | nil => exact absurd rfl h
  | cons x xs => exact ⟨_, rfl⟩

/-- C9: an interface snapshot entry is accepted iff it is up, has at
least one IPv6 link-local network and — with V4 enabled — at least one
IPv4 network; the selected v6 (and, when V4 is enabled, v4) network is
the lowest qualifying one in the CIDR order; with V4 disabled the v4
network defaults to 0.0.0.0/32. -/
theorem C9_interface_filtering (enableV4 isUp : Bool)
    (networks : List IfaceNetwork) :
    ((processInterfaceEntry enableV4 isUp networks).isSome = true ↔
      (isUp = true ∧ networks.filter (fun n => !n.isV4 && n.isLinkLocal) ≠ [] ∧
        (enableV4 = true → networks.filter (fun n => n.isV4) ≠ []))) ∧
    (∀ n4 n6, processInterfaceEntry enableV4 isUp networks = some (n4, n6) →
      (n6 ∈ networks.filter (fun n => !n.isV4 && n.isLinkLocal) ∧
        ∀ y ∈ networks.filter (fun n => !n.isV4 && n.isLinkLocal),
          cidrLt y n6 = false) ∧
      (enableV4 = true →
        n4 ∈ networks.filter (fun n => n.isV4) ∧
          ∀ y ∈ networks.filter (fun n => n.isV4), cidrLt y n4 = false) ∧
      (enableV4 = false → n4 = defaultV4Network)) := by
  by_cases hup : isUp = true
  · by_cases h6 : networks.filter (fun n => !n.isV4 && n.isLinkLocal) = []
    · constructor
      · simp [processInterfaceEntry, hup, h6, List.isEmpty_iff]
      · intro n4 n6 hsome
        simp [processInterfaceEntry, hup, h6, List.isEmpty_iff] at hsome
    · obtain ⟨m6, hm6⟩ := setMinimum_isSome _ h6
      obtain ⟨hm6mem, hm6min⟩ := setMinimum_spec _ _ hm6
      by_cases hv4 : enableV4 = true
      · by_cases h4 : networks.filter (fun n => n.isV4) = []
        · constructor
          · simp [processInterfaceEntry, hup, h6, h4, hv4, List.isEmpty_iff]
          · intro n4 n6 hsome
            simp [processInterfaceEntry, hup, h6, h4, hv4, List.isEmpty_iff] at hsome
        · obtain ⟨m4, hm4⟩ := setMinimum_isSome _ h4
          obtain ⟨hm4mem, hm4min⟩ := setMinimum_spec _ _ hm4
          have hres : processInterfaceEntry enableV4 isUp networks = some (m4, m6) := by
            simp [processInterfaceEntry, hup, h6, h4, hv4, List.isEmpty_iff, hm6, hm4]
          constructor
          · rw [hres]
            simp only [Option.isSome_some, true_iff]
            exact ⟨hup, h6, fun _ => h4⟩
          · intro n4 n6 hsome
            rw [hres] at hsome
            simp only [Option.some.injEq, Prod.mk.injEq] at hsome
            obtain ⟨rfl, rfl⟩ := hsome
            exact ⟨⟨hm6mem, hm6min⟩, fun _ => ⟨hm4mem, hm4min⟩,
              fun hc => absurd hv4 (by simp [hc])⟩
      · have hv4f : enableV4 = false := by
          cases enableV4 <;> simp_all
        have hres : processInterfaceEntry enableV4 isUp networks =
            some (defaultV4Network, m6) := by
          simp [processInterfaceEntry, hup, h6, hv4f, List.isEmpty_iff, hm6]
        constructor
        · rw [hres]
          simp only [Option.isSome_some, true_iff]
          exact ⟨hup, h6, fun hc => absurd hc (by simp [hv4f])⟩
        · intro n4 n6 hsome
          rw [hres] at hsome
          simp only [Option.some.injEq, Prod.mk.injEq] at hsome
          obtain ⟨rfl, rfl⟩ := hsome
          exact ⟨⟨hm6mem, hm6min⟩, fun hc => absurd hc (by simp [hv4f]),
            fun _ => rfl⟩
  · constructor
    · simp [processInterfaceEntry, hup]
    · intro n4 n6 hsome
      simp [processInterfaceEntry, hup] at hsome

/-- Witness for C9 at a concrete snapshot entry: among two v4 networks
the numerically lower one is selected, and the v6 link-local network
is selected. -/
theorem C9_interface_filtering_witness :
    processInterfaceEntry true true
        [{ isV4 := true, isLinkLocal := false, addr := 10, prefixLen := 24 },
         { isV4 := false, isLinkLocal := true, addr := 5, prefixLen := 64 },
         { isV4 := true, isLinkLocal := false, addr := 3, prefixLen := 24 }] =
      some ({ isV4 := true, isLinkLocal := false, addr := 3, prefixLen := 24 },
            { isV4 := false, isLinkLocal := true, addr := 5, prefixLen := 64 }) ∧
    ({ isV4 := true, isLinkLocal := false, addr := 3, prefixLen := 24 } : IfaceNetwork) ∈
      ([{ isV4 := true, isLinkLocal := false, addr := 10, prefixLen := 24 },
        { isV4 := false, isLinkLocal := true, addr := 5, prefixLen := 64 },
        { isV4 := true, isLinkLocal := false, addr := 3, prefixLen := 24 }] :
          List IfaceNetwork).filter (fun n => n.isV4) := by
  have hres : processInterfaceEntry true true
      [{ isV4 := true, isLinkLocal := false, addr := 10, prefixLen := 24 },
       { isV4 := false, isLinkLocal := true, addr := 5, prefixLen := 64 },
       { isV4 := true, isLinkLocal := false, addr := 3, prefixLen := 24 }] =
      some ({ isV4 := true, isLinkLocal := false, addr := 3, prefixLen := 24 },
            { isV4 := false, isLinkLocal := true, addr := 5, prefixLen := 64 }) := by
    decide
  have h := (C9_interface_filtering true true
    [{ isV4 := true, isLinkLocal := false, addr := 10, prefixLen := 24 },
     { isV4 := false, isLinkLocal := true, addr := 5, prefixLen := 64 },
     { isV4 := true, isLinkLocal := false, addr := 3, prefixLen := 24 }]).2 _ _ hres
  exact ⟨hres, (h.2.1 rfl).1⟩

/-! ### Projection lemmas for the state operations -/

theorem setNb_neighbors_apply (n : String) (nb : Spark2Neighbor)
    (s : SparkState) (m : String) :
    (setNb n nb s).neighbors m = if m = n then some nb else s.neighbors m := rfl

theorem setNb_activeNeighbors (n : String) (nb : Spark2Neighbor) (s : SparkState) :
    (setNb n nb s).activeNeighbors = s.activeNeighbors := rfl

theorem setNb_mySeqNum (n : String) (nb : Spark2Neighbor) (s : SparkState) :
    (setNb n nb s).mySeqNum = s.mySeqNum := rfl

theorem setNb_events (n : String) (nb : Spark2Neighbor) (s : SparkState) :
    (setNb n nb s).events = s.events := rfl

theorem setNb_tracked (n : String) (nb : Spark2Neighbor) (s : SparkState) :
    (setNb n nb s).tracked = s.tracked := rfl

theorem eraseNb_neighbors_apply (n : String) (s : SparkState) (m : String) :
    (eraseNb n s).neighbors m = if m = n then none else s.neighbors m := rfl

theorem eraseNb_activeNeighbors (n : String) (s : SparkState) :
    (eraseNb n s).activeNeighbors = s.activeNeighbors := rfl

theorem eraseNb_mySeqNum (n : String) (s : SparkState) :
    (eraseNb n s).mySeqNum = s.mySeqNum := rfl

theorem eraseNb_events (n : String) (s : SparkState) :
    (eraseNb n s).events = s.events := rfl

theorem notify_neighbors (ev : SparkNeighborEventType) (n : String) (s : SparkState) :
    (notifySparkNeighborEvent ev n s).neighbors = s.neighbors := rfl

theorem notify_activeNeighbors (ev : SparkNeighborEventType) (n : String)
    (s : SparkState) :
    (notifySparkNeighborEvent ev n s).activeNeighbors = s.activeNeighbors := rfl

theorem notify_mySeqNum (ev : SparkNeighborEventType) (n : String) (s : SparkState) :
    (notifySparkNeighborEvent ev n s).mySeqNum = s.mySeqNum := rfl

theorem notify_events (ev : SparkNeighborEventType) (n : String) (s : SparkState) :
    (notifySparkNeighborEvent ev n s).events = s.events ++ [(ev, n)] := rfl

theorem bumpCounter_activeNeighbors (key : String) (s : SparkState) :
    (bumpCounter key s).activeNeighbors = s.activeNeighbors := rfl

theorem bumpCounter_mySeqNum (key : String) (s : SparkState) :
    (bumpCounter key s).mySeqNum = s.mySeqNum := rfl

theorem bumpCounter_events (key : String) (s : SparkState) :
    (bumpCounter key s).events = s.events := rfl

theorem sendHelloMsg_neighbors (cfg : SparkConfig) (a b c : Bool) (s : SparkState) :
    (sendHelloMsg cfg a b c s).neighbors = s.neighbors := by
  unfold sendHelloMsg
  split_ifs <;> rfl

theorem sendHelloMsg_activeNeighbors (cfg : SparkConfig) (a b c : Bool)
    (s : SparkState) :
    (sendHelloMsg cfg a b c s).activeNeighbors = s.activeNeighbors := by
  unfold sendHelloMsg
  split_ifs <;> rfl

theorem sendHelloMsg_events (cfg : SparkConfig) (a b c : Bool) (s : SparkState) :
    (sendHelloMsg cfg a b c s).events = s.events := by
  unfold sendHelloMsg
  split_ifs <;> rfl

theorem sendHelloMsg_tracked (cfg : SparkConfig) (a b c : Bool) (s : SparkState) :
    (sendHelloMsg cfg a b c s).tracked = s.tracked := by
  unfold sendHelloMsg
  split_ifs <;> rfl

theorem sendHelloMsg_mySeqNum (cfg : SparkConfig) (a b c : Bool) (s : SparkState) :
    (sendHelloMsg cfg a b c s).mySeqNum =
      if s.tracked then s.mySeqNum + 1 else s.mySeqNum := by
  unfold sendHelloMsg
  split_ifs <;> simp_all [bumpCounter]

theorem sendHandshakeMsg_neighbors (cfg : SparkConfig) (a b : Bool) (s : SparkState) :
    (sendHandshakeMsg cfg a b s).neighbors = s.neighbors := by
  unfold sendHandshakeMsg
  split_ifs <;> rfl

theorem sendHandshakeMsg_activeNeighbors (cfg : SparkConfig) (a b : Bool)
    (s : SparkState) :
    (sendHandshakeMsg cfg a b s).activeNeighbors = s.activeNeighbors := by
  unfold sendHandshakeMsg
  split_ifs <;> rfl

theorem sendHandshakeMsg_events (cfg : SparkConfig) (a b : Bool) (s : SparkState) :
    (sendHandshakeMsg cfg a b s).events = s.events := by
  unfold sendHandshakeMsg
  split_ifs <;> rfl

theorem sendHandshakeMsg_mySeqNum (cfg : SparkConfig) (a b : Bool) (s : SparkState) :
    (sendHandshakeMsg cfg a b s).mySeqNum = s.mySeqNum := by
  unfold sendHandshakeMsg
  split_ifs <;> rfl

theorem sendHeartbeatMsg_neighbors (cfg : SparkConfig) (b : Bool) (s : SparkState) :
    (sendHeartbeatMsg cfg b s).neighbors = s.neighbors := by
  unfold sendHeartbeatMsg
  split_ifs <;> rfl

theorem sendHeartbeatMsg_activeNeighbors (cfg : SparkConfig) (b : Bool)
    (s : SparkState) :
    (sendHeartbeatMsg cfg b s).activeNeighbors = s.activeNeighbors := by
  unfold sendHeartbeatMsg
  split_ifs <;> rfl

theorem sendHeartbeatMsg_events (cfg : SparkConfig) (b : Bool) (s : SparkState) :
    (sendHeartbeatMsg cfg b s).events = s.events := by
  unfold sendHeartbeatMsg
  split_ifs <;> rfl

theorem sendHeartbeatMsg_mySeqNum (cfg : SparkConfig) (b : Bool) (s : SparkState) :
    (sendHeartbeatMsg cfg b s).mySeqNum = s.mySeqNum + 1 := by
  unfold sendHeartbeatMsg
  split_ifs <;> rfl

theorem neighborDownWrapper_neighbors (n : String) (s : SparkState) :
    (neighborDownWrapper n s).neighbors = s.neighbors := by
  cases hs : s.activeNeighbors with
  | none => simp [neighborDownWrapper, notifySparkNeighborEvent, hs]
  | some l =>
      by_cases he : (l.filter (fun x => x != n)).isEmpty
      · simp [neighborDownWrapper, notifySparkNeighborEvent, hs, he]
      · simp [neighborDownWrapper, notifySparkNeighborEvent, hs, he]

theorem neighborDownWrapper_mySeqNum (n : String) (s : SparkState) :
    (neighborDownWrapper n s).mySeqNum = s.mySeqNum := by
  cases hs : s.activeNeighbors with
  | none => simp [neighborDownWrapper, notifySparkNeighborEvent, hs]
  | some l =>
      by_cases he : (l.filter (fun x => x != n)).isEmpty
      · simp [neighborDownWrapper, notifySparkNeighborEvent, hs, he]
      · simp [neighborDownWrapper, notifySparkNeighborEvent, hs, he]

theorem neighborDownWrapper_tracked (n : String) (s : SparkState) :
    (neighborDownWrapper n s).tracked = s.tracked := by
  cases hs : s.activeNeighbors with
  | none => simp [neighborDownWrapper, notifySparkNeighborEvent, hs]
  | some l =>
      by_cases he : (l.filter (fun x => x != n)).isEmpty
      · simp [neighborDownWrapper, notifySparkNeighborEvent, hs, he]
      · simp [neighborDownWrapper, notifySparkNeighborEvent, hs, he]

theorem isActive_neighborDownWrapper (n : String) (s : SparkState) (m : String) :
    isActive (neighborDownWrapper n s) m ↔ (isActive s m ∧ m ≠ n) := by
  unfold isActive activeList
  cases hs : s.activeNeighbors with
  | none => simp [neighborDownWrapper, notifySparkNeighborEvent, hs]
  | some l =>
      by_cases he : (l.filter (fun x => x != n)).isEmpty
      · rw [List.isEmpty_iff] at he
        have key : ¬ (m ∈ l ∧ m ≠ n) := by
          rintro ⟨hmem, hne⟩
          have hmf : m ∈ l.filter (fun x => x != n) :=
            List.mem_filter.mpr ⟨hmem, by simp [hne]⟩
          rw [he] at hmf
          simp at hmf
        simp [neighborDownWrapper, notifySparkNeighborEvent, hs, he, key]
      · simp [neighborDownWrapper, notifySparkNeighborEvent, hs, he,
          List.mem_filter, bne_iff_ne]

theorem isActive_neighborUpWrapper (n : String) (nb : Spark2Neighbor)
    (s : SparkState) (m : String) :
    isActive (neighborUpWrapper n nb s) m ↔ (m = n ∨ isActive s m) := by
  unfold neighborUpWrapper isActive activeList notifySparkNeighborEvent setNb
  simp only [Option.getD_some]
  by_cases hc : (s.activeNeighbors.getD []).contains n
  · rw [if_pos hc]
    have hn : n ∈ s.activeNeighbors.getD [] := by
      rw [← List.elem_iff]
      exact hc
    constructor
    · intro hm
      exact Or.inr hm
    · rintro (rfl | hm)
      · exact hn
      · exact hm
  · rw [if_neg hc]
    simp [List.mem_cons]

theorem neighborUpWrapper_neighbors (n : String) (nb : Spark2Neighbor)
    (s : SparkState) (m : String) :
    (neighborUpWrapper n nb s).neighbors m =
      if m = n then
        some { nb with
          negotiateTimer := false
          negotiateHoldTimer := false
          heartbeatHoldTimer := true }
      else s.neighbors m := rfl

theorem neighborUpWrapper_mySeqNum (n : String) (nb : Spark2Neighbor)
    (s : SparkState) :
    (neighborUpWrapper n nb s).mySeqNum = s.mySeqNum := rfl

theorem neighborUpWrapper_events (n : String) (nb : Spark2Neighbor)
    (s : SparkState) :
    (neighborUpWrapper n nb s).events =
      s.events ++ [(.NEIGHBOR_UP, n)] := rfl

theorem processGRMsg_mySeqNum (n : String) (nb : Spark2Neighbor) (s : SparkState) :
    (processGRMsg n nb s).mySeqNum = s.mySeqNum := rfl

theorem processGRMsg_activeNeighbors (n : String) (nb : Spark2Neighbor)
    (s : SparkState) :
    (processGRMsg n nb s).activeNeighbors = s.activeNeighbors := rfl

/-! ### C5: mySeqNum is non-decreasing, sends increment it by one -/

theorem helloDispatch_mySeqNum (cfg : SparkConfig) (msg : SparkHelloMsg)
    (tsIt : Option ReflectedNeighborInfo) (nb2 : Spark2Neighbor)
    (s : SparkState) :
    (helloDispatch cfg msg tsIt nb2 s).mySeqNum = s.mySeqNum := by
  unfold helloDispatch
  split
  · rfl
  · split
    · rfl
    · dsimp only
      split_ifs <;> rfl
  · dsimp only
    split_ifs with h
    · exact processGRMsg_mySeqNum _ _ _
    · split
      · simp [eraseNb_mySeqNum, neighborDownWrapper_mySeqNum, setNb_mySeqNum]
      · rfl
  · split
    · rfl
    · dsimp only
      split_ifs <;> rfl
  · rfl

theorem processHelloMsgKnown_mySeqNum (cfg : SparkConfig) (msg : SparkHelloMsg)
    (t : Int) (sendOk : Bool) (s : SparkState) :
    s.mySeqNum ≤ (processHelloMsgKnown cfg msg t sendOk s).mySeqNum := by
  unfold processHelloMsgKnown
  split
  · exact le_refl _
  · rw [helloDispatch_mySeqNum]
    split_ifs
    · rw [sendHelloMsg_mySeqNum, setNb_mySeqNum]
      split_ifs <;> omega
    · rw [setNb_mySeqNum]

theorem processHelloMsg_mySeqNum (cfg : SparkConfig) (msg : SparkHelloMsg)
    (t : Int) (sendOk : Bool) (s : SparkState) :
    s.mySeqNum ≤ (processHelloMsg cfg msg t sendOk s).mySeqNum := by
  have key : ∀ s2 : SparkState, s2.mySeqNum = s.mySeqNum →
      s.mySeqNum ≤ (processHelloMsgKnown cfg msg t sendOk s2).mySeqNum := by
    intro s2 h2
    have h := processHelloMsgKnown_mySeqNum cfg msg t sendOk s2
    omega
  unfold processHelloMsg
  dsimp only
  split_ifs with h1 h2
  · rw [bumpOpt_mySeqNum]
  · split
    · exact key _ (bumpOpt_mySeqNum _ _)
    · split
      · rw [bumpOpt_mySeqNum, bumpOpt_mySeqNum]
      · split
        · rw [bumpOpt_mySeqNum, bumpOpt_mySeqNum]
        · simp [bumpOpt_mySeqNum]
        · exact key _ (by simp [setNb_mySeqNum, bumpOpt_mySeqNum])
  · omega

theorem handshakeNegotiate_mySeqNum (cfg : SparkConfig) (msg : SparkHandshakeMsg)
    (nb0 : Spark2Neighbor) (s : SparkState) :
    (handshakeNegotiate cfg msg nb0 s).mySeqNum = s.mySeqNum := by
  unfold handshakeNegotiate
  dsimp only
  split_ifs <;>
    simp [setNb_mySeqNum, bumpOpt_mySeqNum, neighborUpWrapper_mySeqNum]

theorem processHandshakeMsgBody_mySeqNum (cfg : SparkConfig)
    (msg : SparkHandshakeMsg) (sendOk : Bool) (s : SparkState) :
    (processHandshakeMsgBody cfg msg sendOk s).mySeqNum = s.mySeqNum := by
  unfold processHandshakeMsgBody
  by_cases htr : s.tracked
  · rw [if_neg (by simp [htr])]
    cases hnb : s.neighbors msg.nodeName with
    | none => rfl
    | some nb =>
        dsimp only
        split_ifs <;>
          simp [handshakeNegotiate_mySeqNum, sendHandshakeMsg_mySeqNum]
  · rw [if_pos (by simp [htr])]

theorem processHandshakeMsg_mySeqNum (cfg : SparkConfig) (msg : SparkHandshakeMsg)
    (sendOk : Bool) (s : SparkState) :
    (processHandshakeMsg cfg msg sendOk s).mySeqNum = s.mySeqNum := by
  unfold processHandshakeMsg
  cases hn : msg.neighborNodeName with
  | none => exact processHandshakeMsgBody_mySeqNum cfg msg sendOk s
  | some tgt =>
      dsimp only
      split_ifs with h
      · rfl
      · exact processHandshakeMsgBody_mySeqNum cfg msg sendOk s

theorem processHeartbeatMsg_eq (cfg : SparkConfig) (msg : SparkHeartbeatMsg)
    (s s2 : SparkState) (h : processHeartbeatMsg cfg msg s = some s2) : s2 = s := by
  unfold processHeartbeatMsg at h
  by_cases htr : s.tracked
  · rw [if_neg (by simp [htr])] at h
    cases hnb : s.neighbors msg.nodeName with
    | none =>
        rw [hnb] at h
        simp at h
        exact h.symm
    | some nb =>
        rw [hnb] at h
        dsimp only at h
        split_ifs at h <;> simp_all
  · rw [if_pos (by simp [htr])] at h
    simp at h
    exact h.symm

theorem processHeartbeatTimeout_mySeqNum (n : String) (s s2 : SparkState)
    (h : processHeartbeatTimeout n s = some s2) : s2.mySeqNum = s.mySeqNum := by
  unfold processHeartbeatTimeout at h
  split at h
  · cases h
  · split_ifs at h
    cases h
    simp [eraseNb_mySeqNum, neighborDownWrapper_mySeqNum, setNb_mySeqNum]

theorem processNegotiateTimeout_mySeqNum (n : String) (s s2 : SparkState)
    (h : processNegotiateTimeout n s = some s2) : s2.mySeqNum = s.mySeqNum := by
  unfold processNegotiateTimeout at h
  split at h
  · cases h
  · split_ifs at h
    cases h
    rfl

theorem processGRTimeout_mySeqNum (n : String) (s s2 : SparkState)
    (h : processGRTimeout n s = some s2) : s2.mySeqNum = s.mySeqNum := by
  unfold processGRTimeout at h
  split at h
  · cases h
  · split_ifs at h
    cases h
    simp [eraseNb_mySeqNum, neighborDownWrapper_mySeqNum, setNb_mySeqNum]

theorem negotiateTimerFire_mySeqNum (cfg : SparkConfig) (n : String)
    (sendOk : Bool) (s : SparkState) :
    (negotiateTimerFire cfg n sendOk s).mySeqNum = s.mySeqNum := by
  unfold negotiateTimerFire
  split
  · rfl
  · exact sendHandshakeMsg_mySeqNum _ _ _ _

theorem SparkStep_mySeqNum_le {cfg : SparkConfig} {s s2 : SparkState}
    (h : SparkStep cfg s s2) : s.mySeqNum ≤ s2.mySeqNum := by
  cases h with
  | helloRecv msg t sendOk s => exact processHelloMsg_mySeqNum cfg msg t sendOk s
  | handshakeRecv msg sendOk s => rw [processHandshakeMsg_mySeqNum]
  | heartbeatRecv msg s s2 h => rw [processHeartbeatMsg_eq cfg msg s s2 h]
  | helloTimerFire a b c s =>
      rw [sendHelloMsg_mySeqNum]
      split_ifs <;> omega
  | heartbeatTimerFire sendOk s =>
      rw [sendHeartbeatMsg_mySeqNum]
      omega
  | negotiateTimerFired n sendOk s harm => rw [negotiateTimerFire_mySeqNum]
  | heartbeatHoldTimeout n s s2 harm h => rw [processHeartbeatTimeout_mySeqNum n s s2 h]
  | negotiateHoldTimeout n s s2 harm h => rw [processNegotiateTimeout_mySeqNum n s s2 h]
  | grHoldTimeout n s s2 harm h => rw [processGRTimeout_mySeqNum n s s2 h]

/-! ### The active-set invariant -/

theorem isActive_of_activeNeighbors_eq {s s2 : SparkState}
    (h : s2.activeNeighbors = s.activeNeighbors) (m : String) :
    isActive s2 m ↔ isActive s m := by
  unfold isActive activeList
  rw [h]

theorem updateNeighborRtt_state (a b c d : Int) (nb : Spark2Neighbor) :
    ((updateNeighborRtt a b c d nb).2).state = nb.state := by
  unfold updateNeighborRtt
  dsimp only
  split_ifs <;> rfl

theorem updateNeighborRtt_seqNum (a b c d : Int) (nb : Spark2Neighbor) :
    ((updateNeighborRtt a b c d nb).2).seqNum = nb.seqNum := by
  unfold updateNeighborRtt
  dsimp only
  split_ifs <;> rfl

theorem Inv_of_eqv {s s2 : SparkState}
    (hn : ∀ m, s2.neighbors m = s.neighbors m)
    (ha : ∀ m, isActive s2 m ↔ isActive s m) (h : Inv s) : Inv s2 := by
  obtain ⟨h1, h2⟩ := h
  refine ⟨fun n hna => ?_, fun n nb hnb => ?_⟩
  · rw [hn]
    exact h1 n ((ha n).mp hna)
  · rw [ha]
    exact h2 n nb ((hn n) ▸ hnb)

theorem Inv_bumpOpt (k : Option String) (s : SparkState) (h : Inv s) :
    Inv (bumpOpt k s) := by
  cases k with
  | none => exact h
  | some key => exact h

theorem Inv_sendHelloMsg (cfg : SparkConfig) (a b c : Bool) (s : SparkState)
    (h : Inv s) : Inv (sendHelloMsg cfg a b c s) :=
  Inv_of_eqv (fun m => congrFun (sendHelloMsg_neighbors cfg a b c s) m)
    (isActive_of_activeNeighbors_eq (sendHelloMsg_activeNeighbors cfg a b c s)) h

theorem Inv_sendHandshakeMsg (cfg : SparkConfig) (a b : Bool) (s : SparkState)
    (h : Inv s) : Inv (sendHandshakeMsg cfg a b s) :=
  Inv_of_eqv (fun m => congrFun (sendHandshakeMsg_neighbors cfg a b s) m)
    (isActive_of_activeNeighbors_eq (sendHandshakeMsg_activeNeighbors cfg a b s)) h

theorem Inv_sendHeartbeatMsg (cfg : SparkConfig) (b : Bool) (s : SparkState)
    (h : Inv s) : Inv (sendHeartbeatMsg cfg b s) :=
  Inv_of_eqv (fun m => congrFun (sendHeartbeatMsg_neighbors cfg b s) m)
    (isActive_of_activeNeighbors_eq (sendHeartbeatMsg_activeNeighbors cfg b s)) h

/-- Replacing a stored neighbor without changing its activity class
keeps the invariant. -/
theorem Inv_setNb_class {s : SparkState} {n : String} {nb nb2 : Spark2Neighbor}
    (h : Inv s) (hnb : s.neighbors n = some nb)
    (hc : activeClass nb2.state ↔ activeClass nb.state) : Inv (setNb n nb2 s) := by
  obtain ⟨h1, h2⟩ := h
  refine ⟨fun m hm => ?_, fun m nbx hx => ?_⟩
  · by_cases hmn : m = n
    · rw [setNb_neighbors_apply, if_pos hmn]
      rfl
    · rw [setNb_neighbors_apply, if_neg hmn]
      exact h1 m hm
  · rw [setNb_neighbors_apply] at hx
    by_cases hmn : m = n
    · rw [if_pos hmn] at hx
      injection hx with hx
      subst hx
      subst hmn
      exact (h2 m nb hnb).trans hc.symm
    · rw [if_neg hmn] at hx
      exact h2 m nbx hx

/-- Creating a fresh neighbor outside the activity class keeps the
invariant. -/
theorem Inv_setNb_fresh {s : SparkState} {n : String} {nb : Spark2Neighbor}
    (h : Inv s) (hnone : s.neighbors n = none)
    (hc : ¬ activeClass nb.state) : Inv (setNb n nb s) := by
  obtain ⟨h1, h2⟩ := h
  have hact : ¬ isActive s n := by
    intro ha
    have hsome := h1 n ha
    rw [hnone] at hsome
    simp at hsome
  refine ⟨fun m hm => ?_, fun m nbx hx => ?_⟩
  · by_cases hmn : m = n
    · rw [setNb_neighbors_apply, if_pos hmn]
      rfl
    · rw [setNb_neighbors_apply, if_neg hmn]
      exact h1 m hm
  · rw [setNb_neighbors_apply] at hx
    by_cases hmn : m = n
    · rw [if_pos hmn] at hx
      injection hx with hx
      subst hx
      subst hmn
      constructor
      · intro ha
        exact absurd ha hact
      · intro hcl
        exact absurd hcl hc
    · rw [if_neg hmn] at hx
      exact h2 m nbx hx

/-- The composite "write the transitioned neighbor, bring the
neighborship down, erase neighbor and label" keeps the invariant. -/
theorem Inv_down_erase (s0 : SparkState) (n : String) (nb2 : Spark2Neighbor)
    (lab : List Int) (h : Inv s0) :
    Inv (eraseNb n
      { neighborDownWrapper n (setNb n nb2 s0) with allocatedLabels := lab }) := by
  obtain ⟨h1, h2⟩ := h
  have hA : ∀ m, isActive (eraseNb n
      { neighborDownWrapper n (setNb n nb2 s0) with allocatedLabels := lab }) m ↔
      (isActive s0 m ∧ m ≠ n) :=
    fun m => isActive_neighborDownWrapper n (setNb n nb2 s0) m
  have hN : ∀ m, (eraseNb n
      { neighborDownWrapper n (setNb n nb2 s0) with allocatedLabels := lab }).neighbors m =
      if m = n then none else s0.neighbors m := by
    intro m
    rw [eraseNb_neighbors_apply]
    by_cases hmn : m = n
    · rw [if_pos hmn, if_pos hmn]
    · rw [if_neg hmn, if_neg hmn]
      have hu : ({ neighborDownWrapper n (setNb n nb2 s0) with
          allocatedLabels := lab }).neighbors =
          (neighborDownWrapper n (setNb n nb2 s0)).neighbors := rfl
      rw [hu, neighborDownWrapper_neighbors, setNb_neighbors_apply, if_neg hmn]
  refine ⟨fun m hm => ?_, fun m nbx hx => ?_⟩
  · obtain ⟨hm0, hmn⟩ := (hA m).mp hm
    rw [hN, if_neg hmn]
    exact h1 m hm0
  · rw [hN] at hx
    by_cases hmn : m = n
    · rw [if_pos hmn] at hx
      cases hx
    · rw [if_neg hmn] at hx
      rw [hA]
      constructor
      · rintro ⟨hm0, _⟩
        exact (h2 m nbx hx).mp hm0
      · intro hcl
        exact ⟨(h2 m nbx hx).mpr hcl, hmn⟩

/-- Promoting a neighbor in the activity class via
`neighborUpWrapper` keeps the invariant. -/
theorem Inv_up {s : SparkState} {n : String} {nb2 : Spark2Neighbor}
    (h : Inv s) (hc : activeClass nb2.state) : Inv (neighborUpWrapper n nb2 s) := by
  obtain ⟨h1, h2⟩ := h
  refine ⟨fun m hm => ?_, fun m nbx hx => ?_⟩
  · by_cases hmn : m = n
    · rw [neighborUpWrapper_neighbors, if_pos hmn]
      rfl
    · rw [neighborUpWrapper_neighbors, if_neg hmn]
      rcases (isActive_neighborUpWrapper n nb2 s m).mp hm with heq | hm2
      · exact absurd heq hmn
      · exact h1 m hm2
  · rw [neighborUpWrapper_neighbors] at hx
    by_cases hmn : m = n
    · rw [if_pos hmn] at hx
      injection hx with hx
      subst hx
      constructor
      · intro _
        exact hc
      · intro _
        exact (isActive_neighborUpWrapper n nb2 s m).mpr (Or.inl hmn)
    · rw [if_neg hmn] at hx
      rw [isActive_neighborUpWrapper]
      constructor
      · rintro (heq | hm2)
        · exact absurd heq hmn
        · exact (h2 m nbx hx).mp hm2
      · intro hcl
        exact Or.inr ((h2 m nbx hx).mpr hcl)

/-- The per-state hello dispatch preserves the invariant. -/
theorem Inv_helloDispatch (cfg : SparkConfig) (msg : SparkHelloMsg)
    (tsIt : Option ReflectedNeighborInfo) (nb2 : Spark2Neighbor) (s : SparkState)
    (h : Inv s) (hnb : s.neighbors msg.nodeName = some nb2) :
    Inv (helloDispatch cfg msg tsIt nb2 s) := by
  unfold helloDispatch
  split
  · -- IDLE: transition to WARM
    rename_i hst
    exact Inv_setNb_class h hnb (by simp only [hst]; decide)
  · -- WARM
    rename_i hst
    dsimp only
    have h2 : Inv (setNb msg.nodeName { nb2 with seqNum := msg.seqNum } s) :=
      Inv_setNb_class h hnb Iff.rfl
    have hnb2 : (setNb msg.nodeName { nb2 with seqNum := msg.seqNum } s).neighbors
        msg.nodeName = some { nb2 with seqNum := msg.seqNum } := by
      rw [setNb_neighbors_apply, if_pos rfl]
    split
    · exact h2
    · split_ifs
      · exact h2
      · exact Inv_setNb_class h2 hnb2 (by simp only [hst]; decide)
  · -- ESTABLISHED
    rename_i hst
    dsimp only
    have h2 : Inv (setNb msg.nodeName { nb2 with seqNum := msg.seqNum } s) :=
      Inv_setNb_class h hnb Iff.rfl
    have hnb2 : (setNb msg.nodeName { nb2 with seqNum := msg.seqNum } s).neighbors
        msg.nodeName = some { nb2 with seqNum := msg.seqNum } := by
      rw [setNb_neighbors_apply, if_pos rfl]
    split_ifs
    · -- graceful restart announcement
      unfold processGRMsg
      dsimp only
      exact Inv_setNb_class h2 hnb2 (by simp only [hst]; decide)
    · split
      · exact Inv_down_erase _ _ _ _ h2
      · exact h2
  · -- RESTART
    rename_i hst
    dsimp only
    split
    · exact h
    · split_ifs
      · exact h
      · exact Inv_setNb_class h hnb (by simp only [hst]; decide)
  · -- NEGOTIATE
    exact h

/-- `processHelloMsg` restricted to a known neighbor preserves the
invariant. -/
theorem Inv_processHelloMsgKnown (cfg : SparkConfig) (msg : SparkHelloMsg)
    (t : Int) (sendOk : Bool) (s : SparkState) (h : Inv s) :
    Inv (processHelloMsgKnown cfg msg t sendOk s) := by
  unfold processHelloMsgKnown
  cases hnb : s.neighbors msg.nodeName with
  | none => exact h
  | some nb0 =>
      dsimp only
      cases hts : msg.neighborInfos.lookup cfg.myNodeName with
      | none =>
          dsimp only
          have h2 : Inv (setNb msg.nodeName { nb0 with
              neighborTimestamp := msg.sentTsInUs
              localTimestamp := t } s) :=
            Inv_setNb_class h hnb Iff.rfl
          have hnb2 : (setNb msg.nodeName { nb0 with
              neighborTimestamp := msg.sentTsInUs
              localTimestamp := t } s).neighbors msg.nodeName =
              some { nb0 with
                neighborTimestamp := msg.sentTsInUs
                localTimestamp := t } := by
            rw [setNb_neighbors_apply, if_pos rfl]
          split_ifs with hsol
          · refine Inv_helloDispatch cfg msg none _ _
              (Inv_sendHelloMsg cfg false false sendOk _ h2) ?_
            rw [congrFun (sendHelloMsg_neighbors cfg false false sendOk _) msg.nodeName]
            exact hnb2
          · exact Inv_helloDispatch cfg msg none _ _ h2 hnb2
      | some ts =>
          dsimp only
          have hcl : activeClass ((updateNeighborRtt t ts.lastNbrMsgSentTsInUs
              ts.lastMyMsgRcvdTsInUs msg.sentTsInUs { nb0 with
                neighborTimestamp := msg.sentTsInUs
                localTimestamp := t }).2).state ↔ activeClass nb0.state := by
            rw [updateNeighborRtt_state]
          have h2 : Inv (setNb msg.nodeName ((updateNeighborRtt t
              ts.lastNbrMsgSentTsInUs ts.lastMyMsgRcvdTsInUs msg.sentTsInUs
              { nb0 with
                neighborTimestamp := msg.sentTsInUs
                localTimestamp := t }).2) s) :=
            Inv_setNb_class h hnb hcl
          have hnb2 : (setNb msg.nodeName ((updateNeighborRtt t
              ts.lastNbrMsgSentTsInUs ts.lastMyMsgRcvdTsInUs msg.sentTsInUs
              { nb0 with
                neighborTimestamp := msg.sentTsInUs
                localTimestamp := t }).2) s).neighbors msg.nodeName =
              some ((updateNeighborRtt t ts.lastNbrMsgSentTsInUs
                ts.lastMyMsgRcvdTsInUs msg.sentTsInUs { nb0 with
                  neighborTimestamp := msg.sentTsInUs
                  localTimestamp := t }).2) := by
            rw [setNb_neighbors_apply, if_pos rfl]
          split_ifs with hsol
          · refine Inv_helloDispatch cfg msg (some ts) _ _
              (Inv_sendHelloMsg cfg false false sendOk _ h2) ?_
            rw [congrFun (sendHelloMsg_neighbors cfg false false sendOk _) msg.nodeName]
            exact hnb2
          · exact Inv_helloDispatch cfg msg (some ts) _ _ h2 hnb2

/-- `processHelloMsg` preserves the invariant. -/
theorem Inv_processHelloMsg (cfg : SparkConfig) (msg : SparkHelloMsg)
    (t : Int) (sendOk : Bool) (s : SparkState) (h : Inv s) :
    Inv (processHelloMsg cfg msg t sendOk s) := by
  unfold processHelloMsg
  dsimp only
  split_ifs with h1 h2
  · exact Inv_bumpOpt _ _ h
  · cases hnb : (bumpOpt (sanityCheckHelloPkt cfg.myNodeName cfg.myDomainName
        cfg.lowestSupportedVersion msg.domainName msg.nodeName msg.version).2
        s).neighbors msg.nodeName with
    | some nb0 => exact Inv_processHelloMsgKnown cfg msg t sendOk _ (Inv_bumpOpt _ _ h)
    | none =>
        dsimp only
        split
        · exact Inv_bumpOpt _ _ (Inv_bumpOpt _ _ h)
        · split
          · exact Inv_bumpOpt _ _ (Inv_bumpOpt _ _ h)
          · exact Inv_bumpOpt _ _ (Inv_bumpOpt _ _ h)
          · rename_i area hlabel
            apply Inv_processHelloMsgKnown
            apply Inv_setNb_fresh
            · exact Inv_bumpOpt _ _ (Inv_bumpOpt _ _ h)
            · rw [bumpOpt_neighbors]
              exact hnb
            · exact (by decide :
                ¬ activeClass (Spark2Neighbor.create "" "" "" 0 0 "").state)
  · exact h

/-- The negotiation step of the handshake preserves the invariant. -/
theorem Inv_handshakeNegotiate (cfg : SparkConfig) (msg : SparkHandshakeMsg)
    (nb0 : Spark2Neighbor) (s : SparkState) (h : Inv s)
    (hnb : s.neighbors msg.nodeName = some nb0)
    (hst : nb0.state = SparkNeighState.NEGOTIATE) :
    Inv (handshakeNegotiate cfg msg nb0 s) := by
  unfold handshakeNegotiate
  dsimp only
  have h2 : Inv (setNb msg.nodeName { nb0 with
      kvStoreCmdPort := msg.kvStoreCmdPort
      openrCtrlThriftPort := msg.openrCtrlThriftPort
      transportAddressV4 := msg.transportAddressV4
      transportAddressV6 := msg.transportAddressV6
      heartbeatHoldTime := max msg.holdTime cfg.myHeartbeatHoldTime
      gracefulRestartHoldTime := max msg.gracefulRestartTime cfg.myHoldTime } s) :=
    Inv_setNb_class h hnb Iff.rfl
  have hnb2 : ∀ k, (bumpOpt k (setNb msg.nodeName { nb0 with
      kvStoreCmdPort := msg.kvStoreCmdPort
      openrCtrlThriftPort := msg.openrCtrlThriftPort
      transportAddressV4 := msg.transportAddressV4
      transportAddressV6 := msg.transportAddressV6
      heartbeatHoldTime := max msg.holdTime cfg.myHeartbeatHoldTime
      gracefulRestartHoldTime := max msg.gracefulRestartTime cfg.myHoldTime } s)).neighbors
      msg.nodeName = some { nb0 with
      kvStoreCmdPort := msg.kvStoreCmdPort
      openrCtrlThriftPort := msg.openrCtrlThriftPort
      transportAddressV4 := msg.transportAddressV4
      transportAddressV6 := msg.transportAddressV6
      heartbeatHoldTime := max msg.holdTime cfg.myHeartbeatHoldTime
      gracefulRestartHoldTime := max msg.gracefulRestartTime cfg.myHoldTime } := by
    intro k
    rw [bumpOpt_neighbors, setNb_neighbors_apply, if_pos rfl]
  split_ifs <;>
    first
      | exact Inv_setNb_class (Inv_bumpOpt _ _ h2) (hnb2 _)
          (by simp only [hst]; decide)
      | exact Inv_up (Inv_bumpOpt _ _ h2) (by simp only [hst]; decide)
      | exact Inv_up
          (Inv_setNb_class (Inv_bumpOpt _ _ h2) (hnb2 _) Iff.rfl)
          (by simp only [hst]; decide)

/-- `processHandshakeMsg` preserves the invariant. -/
theorem Inv_processHandshakeMsg (cfg : SparkConfig) (msg : SparkHandshakeMsg)
    (sendOk : Bool) (s : SparkState) (h : Inv s) :
    Inv (processHandshakeMsg cfg msg sendOk s) := by
  have hbody : Inv (processHandshakeMsgBody cfg msg sendOk s) := by
    unfold processHandshakeMsgBody
    by_cases htr : s.tracked
    · rw [if_neg (by simp [htr])]
      cases hnb : s.neighbors msg.nodeName with
      | none => exact h
      | some nb =>
          dsimp only
          by_cases hst : nb.state = SparkNeighState.NEGOTIATE
          · rw [if_neg (by simp [hst])]
            split_ifs with hadj
            · exact Inv_handshakeNegotiate cfg msg nb _ h hnb hst
            · refine Inv_handshakeNegotiate cfg msg nb _
                (Inv_sendHandshakeMsg _ _ _ _ h) ?_ hst
              rw [congrFun (sendHandshakeMsg_neighbors _ _ _ _) msg.nodeName]
              exact hnb
          · rw [if_pos (by simp [hst])]
            split_ifs with hadj
            · exact h
            · exact Inv_sendHandshakeMsg _ _ _ _ h
    · rw [if_pos (by simp [htr])]
      exact h
  unfold processHandshakeMsg
  cases hn : msg.neighborNodeName with
  | none => exact hbody
  | some tgt =>
      dsimp only
      split_ifs with hne
      · exact h
      · exact hbody

/-- The heartbeat hold timeout preserves the invariant. -/
theorem Inv_processHeartbeatTimeout (n : String) (s s2 : SparkState)
    (hstep : processHeartbeatTimeout n s = some s2) (h : Inv s) : Inv s2 := by
  unfold processHeartbeatTimeout at hstep
  cases hnb : s.neighbors n with
  | none =>
      rw [hnb] at hstep
      cases hstep
  | some nb =>
      rw [hnb] at hstep
      dsimp only at hstep
      split_ifs at hstep
      injection hstep with hstep
      subst hstep
      exact Inv_down_erase s n _ _ h

/-- The negotiate hold timeout preserves the invariant. -/
theorem Inv_processNegotiateTimeout (n : String) (s s2 : SparkState)
    (hstep : processNegotiateTimeout n s = some s2) (h : Inv s) : Inv s2 := by
  unfold processNegotiateTimeout at hstep
  cases hnb : s.neighbors n with
  | none =>
      rw [hnb] at hstep
      cases hstep
  | some nb =>
      rw [hnb] at hstep
      dsimp only at hstep
      split_ifs at hstep with hst
      injection hstep with hstep
      subst hstep
      exact Inv_setNb_class h hnb (by simp only [hst]; decide)

/-- The graceful-restart hold timeout preserves the invariant. -/
theorem Inv_processGRTimeout (n : String) (s s2 : SparkState)
    (hstep : processGRTimeout n s = some s2) (h : Inv s) : Inv s2 := by
  unfold processGRTimeout at hstep
  cases hnb : s.neighbors n with
  | none =>
      rw [hnb] at hstep
      cases hstep
  | some nb =>
      rw [hnb] at hstep
      dsimp only at hstep
      split_ifs at hstep
      injection hstep with hstep
      subst hstep
      exact Inv_down_erase s n _ _ h

/-- One engine step preserves the invariant. -/
theorem Inv_step {cfg : SparkConfig} {s s2 : SparkState}
    (hstep : SparkStep cfg s s2) (h : Inv s) : Inv s2 := by
  cases hstep with
  | helloRecv msg t sendOk s => exact Inv_processHelloMsg cfg msg t sendOk s h
  | handshakeRecv msg sendOk s => exact Inv_processHandshakeMsg cfg msg sendOk s h
  | heartbeatRecv msg s s2 hh =>
      rw [processHeartbeatMsg_eq cfg msg s s2 hh]
      exact h
  | helloTimerFire a b c s => exact Inv_sendHelloMsg cfg a b c s h
  | heartbeatTimerFire sendOk s => exact Inv_sendHeartbeatMsg cfg sendOk s h
  | negotiateTimerFired n sendOk s harm =>
      unfold negotiateTimerFire
      split
      · exact h
      · exact Inv_sendHandshakeMsg _ _ _ _ h
  | heartbeatHoldTimeout n s s2 harm hh => exact Inv_processHeartbeatTimeout n s s2 hh h
  | negotiateHoldTimeout n s s2 harm hh => exact Inv_processNegotiateTimeout n s s2 hh h
  | grHoldTimeout n s s2 harm hh => exact Inv_processGRTimeout n s s2 hh h

/-- The invariant holds at startup. -/
theorem Inv_initState (seq0 : Nat) : Inv (initState seq0) := by
  constructor
  · intro n hn
    simp [isActive, activeList, initState] at hn
  · intro n nb hnb
    simp [initState] at hnb

/-- The invariant holds in every reachable state. -/
theorem Inv_reach {cfg : SparkConfig} {seq0 : Nat} {s : SparkState}
    (h : Reach cfg seq0 s) : Inv s := by
  unfold Reach at h
  induction h with
  | refl => exact Inv_initState seq0
  | tail hsteps hstep ih => exact Inv_step hstep ih

/-! ### Frame lemmas: message processing touches only the sender's
neighbor entry -/

theorem downErase_neighbors_ne (s0 : SparkState) (name : String)
    (nb2 : Spark2Neighbor) (lab : List Int) (n : String) (hne : n ≠ name) :
    (eraseNb name { neighborDownWrapper name (setNb name nb2 s0) with
      allocatedLabels := lab }).neighbors n = s0.neighbors n := by
  rw [eraseNb_neighbors_apply, if_neg hne]
  have hu : ({ neighborDownWrapper name (setNb name nb2 s0) with
      allocatedLabels := lab }).neighbors =
      (neighborDownWrapper name (setNb name nb2 s0)).neighbors := rfl
  rw [hu, neighborDownWrapper_neighbors, setNb_neighbors_apply, if_neg hne]

theorem helloDispatch_neighbors_ne (cfg : SparkConfig) (msg : SparkHelloMsg)
    (tsIt : Option ReflectedNeighborInfo) (nb2 : Spark2Neighbor)
    (s : SparkState) (n : String) (hne : n ≠ msg.nodeName) :
    (helloDispatch cfg msg tsIt nb2 s).neighbors n = s.neighbors n := by
  unfold helloDispatch
  split
  · rw [setNb_neighbors_apply, if_neg hne]
  · dsimp only
    split
    · rw [setNb_neighbors_apply, if_neg hne]
    · split_ifs
      · rw [setNb_neighbors_apply, if_neg hne]
      · rw [setNb_neighbors_apply, if_neg hne, setNb_neighbors_apply, if_neg hne]
  · dsimp only
    split_ifs
    · unfold processGRMsg
      dsimp only
      rw [setNb_neighbors_apply, if_neg hne, notify_neighbors,
        setNb_neighbors_apply, if_neg hne]
    · split
      · rw [downErase_neighbors_ne _ _ _ _ _ hne, setNb_neighbors_apply,
          if_neg hne]
      · rw [setNb_neighbors_apply, if_neg hne]
  · dsimp only
    split
    · rfl
    · split_ifs
      · rfl
      · rw [setNb_neighbors_apply, if_neg hne, notify_neighbors]
  · rfl

theorem processHelloMsgKnown_neighbors_ne (cfg : SparkConfig)
    (msg : SparkHelloMsg) (t : Int) (sendOk : Bool) (s : SparkState)
    (n : String) (hne : n ≠ msg.nodeName) :
    (processHelloMsgKnown cfg msg t sendOk s).neighbors n = s.neighbors n := by
  unfold processHelloMsgKnown
  cases hnb : s.neighbors msg.nodeName with
  | none => rfl
  | some nb0 =>
      dsimp only
      cases hts : msg.neighborInfos.lookup cfg.myNodeName with
      | none =>
          dsimp only
          split_ifs
          · rw [helloDispatch_neighbors_ne _ _ _ _ _ _ hne,
              sendHelloMsg_neighbors, setNb_neighbors_apply, if_neg hne]
          · rw [helloDispatch_neighbors_ne _ _ _ _ _ _ hne,
              setNb_neighbors_apply, if_neg hne]
      | some ts =>
          dsimp only
          split_ifs
          · rw [helloDispatch_neighbors_ne _ _ _ _ _ _ hne,
              sendHelloMsg_neighbors, setNb_neighbors_apply, if_neg hne]
          · rw [helloDispatch_neighbors_ne _ _ _ _ _ _ hne,
              setNb_neighbors_apply, if_neg hne]

theorem processHelloMsg_neighbors_ne (cfg : SparkConfig) (msg : SparkHelloMsg)
    (t : Int) (sendOk : Bool) (s : SparkState) (n : String)
    (hne : n ≠ msg.nodeName) :
    (processHelloMsg cfg msg t sendOk s).neighbors n = s.neighbors n := by
  unfold processHelloMsg
  dsimp only
  split_ifs with h1 h2
  · rw [bumpOpt_neighbors]
  · cases hnb : (bumpOpt (sanityCheckHelloPkt cfg.myNodeName cfg.myDomainName
        cfg.lowestSupportedVersion msg.domainName msg.nodeName msg.version).2
        s).neighbors msg.nodeName with
    | some nb0 =>
        rw [processHelloMsgKnown_neighbors_ne _ _ _ _ _ _ hne, bumpOpt_neighbors]
    | none =>
        dsimp only
        split
        · rw [bumpOpt_neighbors, bumpOpt_neighbors]
        · split
          · rw [bumpOpt_neighbors, bumpOpt_neighbors]
          · dsimp only
            rw [bumpOpt_neighbors, bumpOpt_neighbors]
          · rw [processHelloMsgKnown_neighbors_ne _ _ _ _ _ _ hne,
              setNb_neighbors_apply, if_neg hne, bumpOpt_neighbors,
              bumpOpt_neighbors]
  · rfl

theorem handshakeNegotiate_neighbors_ne (cfg : SparkConfig)
    (msg : SparkHandshakeMsg) (nb0 : Spark2Neighbor) (s : SparkState)
    (n : String) (hne : n ≠ msg.nodeName) :
    (handshakeNegotiate cfg msg nb0 s).neighbors n = s.neighbors n := by
  unfold handshakeNegotiate
  dsimp only
  split_ifs <;>
    first
      | rw [setNb_neighbors_apply, if_neg hne, bumpOpt_neighbors,
          setNb_neighbors_apply, if_neg hne]
      | rw [neighborUpWrapper_neighbors, if_neg hne, bumpOpt_neighbors,
          setNb_neighbors_apply, if_neg hne]
      | rw [neighborUpWrapper_neighbors, if_neg hne, setNb_neighbors_apply,
          if_neg hne, bumpOpt_neighbors, setNb_neighbors_apply, if_neg hne]

theorem processHandshakeMsgBody_neighbors_ne (cfg : SparkConfig)
    (msg : SparkHandshakeMsg) (sendOk : Bool) (s : SparkState) (n : String)
    (hne : n ≠ msg.nodeName) :
    (processHandshakeMsgBody cfg msg sendOk s).neighbors n = s.neighbors n := by
  unfold processHandshakeMsgBody
  by_cases htr : s.tracked
  · rw [if_neg (by simp [htr])]
    cases hnb : s.neighbors msg.nodeName with
    | none => rfl
    | some nb =>
        dsimp only
        by_cases hst : nb.state = SparkNeighState.NEGOTIATE
        · rw [if_neg (by simp [hst])]
          split_ifs with hadj
          · rw [handshakeNegotiate_neighbors_ne _ _ _ _ _ hne]
          · rw [handshakeNegotiate_neighbors_ne _ _ _ _ _ hne,
              sendHandshakeMsg_neighbors]
        · rw [if_pos (by simp [hst])]
          split_ifs with hadj
          · rfl
          · rw [sendHandshakeMsg_neighbors]
  · rw [if_pos (by simp [htr])]

theorem processHandshakeMsg_neighbors_ne (cfg : SparkConfig)
    (msg : SparkHandshakeMsg) (sendOk : Bool) (s : SparkState) (n : String)
    (hne : n ≠ msg.nodeName) :
    (processHandshakeMsg cfg msg sendOk s).neighbors n = s.neighbors n := by
  unfold processHandshakeMsg
  cases hn : msg.neighborNodeName with
  | none => exact processHandshakeMsgBody_neighbors_ne _ _ _ _ _ hne
  | some tgt =>
      dsimp only
      split_ifs with hte
      · rfl
      · exact processHandshakeMsgBody_neighbors_ne _ _ _ _ _ hne

/-! ### The one-directional invariant `InvF` over the full scope -/

theorem InvF_of_eqv {s s2 : SparkState}
    (hn : ∀ m, s2.neighbors m = s.neighbors m)
    (ha : ∀ m, isActive s2 m ↔ isActive s m) (h : InvF s) : InvF s2 := by
  intro n nb hnb hcl
  rw [hn n] at hnb
  exact (ha n).mpr (h n nb hnb hcl)

theorem InvF_bumpOpt (k : Option String) (s : SparkState) (h : InvF s) :
    InvF (bumpOpt k s) := by
  cases k with
  | none => exact h
  | some key => exact h

theorem InvF_sendHelloMsg (cfg : SparkConfig) (a b c : Bool) (s : SparkState)
    (h : InvF s) : InvF (sendHelloMsg cfg a b c s) :=
  InvF_of_eqv (fun m => congrFun (sendHelloMsg_neighbors cfg a b c s) m)
    (isActive_of_activeNeighbors_eq (sendHelloMsg_activeNeighbors cfg a b c s)) h

theorem InvF_sendHandshakeMsg (cfg : SparkConfig) (a b : Bool) (s : SparkState)
    (h : InvF s) : InvF (sendHandshakeMsg cfg a b s) :=
  InvF_of_eqv (fun m => congrFun (sendHandshakeMsg_neighbors cfg a b s) m)
    (isActive_of_activeNeighbors_eq (sendHandshakeMsg_activeNeighbors cfg a b s)) h

theorem InvF_sendHeartbeatMsg (cfg : SparkConfig) (b : Bool) (s : SparkState)
    (h : InvF s) : InvF (sendHeartbeatMsg cfg b s) :=
  InvF_of_eqv (fun m => congrFun (sendHeartbeatMsg_neighbors cfg b s) m)
    (isActive_of_activeNeighbors_eq (sendHeartbeatMsg_activeNeighbors cfg b s)) h

theorem InvF_setNb_class {s : SparkState} {n : String} {nb nb2 : Spark2Neighbor}
    (h : InvF s) (hnb : s.neighbors n = some nb)
    (hc : activeClass nb2.state ↔ activeClass nb.state) : InvF (setNb n nb2 s) := by
  intro m nbx hx hcl
  have hact : isActive (setNb n nb2 s) m ↔ isActive s m :=
    isActive_of_activeNeighbors_eq (setNb_activeNeighbors n nb2 s) m
  rw [setNb_neighbors_apply] at hx
  by_cases hmn : m = n
  · rw [if_pos hmn] at hx
    injection hx with hx
    subst hx
    subst hmn
    exact hact.mpr (h m nb hnb (hc.mp hcl))
  · rw [if_neg hmn] at hx
    exact hact.mpr (h m nbx hx hcl)

theorem InvF_setNb_fresh {s : SparkState} {n : String} {nb : Spark2Neighbor}
    (h : InvF s) (hnone : s.neighbors n = none)
    (hc : ¬ activeClass nb.state) : InvF (setNb n nb s) := by
  intro m nbx hx hcl
  have hact : isActive (setNb n nb s) m ↔ isActive s m :=
    isActive_of_activeNeighbors_eq (setNb_activeNeighbors n nb s) m
  rw [setNb_neighbors_apply] at hx
  by_cases hmn : m = n
  · rw [if_pos hmn] at hx
    injection hx with hx
    subst hx
    exact absurd hcl hc
  · rw [if_neg hmn] at hx
    exact hact.mpr (h m nbx hx hcl)

theorem InvF_down_erase (s0 : SparkState) (n : String) (nb2 : Spark2Neighbor)
    (lab : List Int) (h : InvF s0) :
    InvF (eraseNb n
      { neighborDownWrapper n (setNb n nb2 s0) with allocatedLabels := lab }) := by
  intro m nbx hx hcl
  have hA : isActive (eraseNb n
      { neighborDownWrapper n (setNb n nb2 s0) with allocatedLabels := lab }) m ↔
      (isActive s0 m ∧ m ≠ n) :=
    isActive_neighborDownWrapper n (setNb n nb2 s0) m
  have hN : (eraseNb n
      { neighborDownWrapper n (setNb n nb2 s0) with
        allocatedLabels := lab }).neighbors m =
      if m = n then none else s0.neighbors m := by
    rw [eraseNb_neighbors_apply]
    by_cases hmn : m = n
    · rw [if_pos hmn, if_pos hmn]
    · rw [if_neg hmn, if_neg hmn]
      have hu : ({ neighborDownWrapper n (setNb n nb2 s0) with
          allocatedLabels := lab }).neighbors =
          (neighborDownWrapper n (setNb n nb2 s0)).neighbors := rfl
      rw [hu, neighborDownWrapper_neighbors, setNb_neighbors_apply, if_neg hmn]
  rw [hN] at hx
  by_cases hmn : m = n
  · rw [if_pos hmn] at hx
    cases hx
  · rw [if_neg hmn] at hx
    exact hA.mpr ⟨h m nbx hx hcl, hmn⟩

theorem InvF_up {s : SparkState} {n : String} {nb2 : Spark2Neighbor}
    (h : InvF s) (hc : activeClass nb2.state) : InvF (neighborUpWrapper n nb2 s) := by
  intro m nbx hx hcl
  rw [neighborUpWrapper_neighbors] at hx
  by_cases hmn : m = n
  · exact (isActive_neighborUpWrapper n nb2 s m).mpr (Or.inl hmn)
  · rw [if_neg hmn] at hx
    exact (isActive_neighborUpWrapper n nb2 s m).mpr (Or.inr (h m nbx hx hcl))

theorem InvF_helloDispatch (cfg : SparkConfig) (msg : SparkHelloMsg)
    (tsIt : Option ReflectedNeighborInfo) (nb2 : Spark2Neighbor) (s : SparkState)
    (h : InvF s) (hnb : s.neighbors msg.nodeName = some nb2) :
    InvF (helloDispatch cfg msg tsIt nb2 s) := by
  unfold helloDispatch
  split
  · rename_i hst
    exact InvF_setNb_class h hnb (by simp only [hst]; decide)
  · rename_i hst
    dsimp only
    have h2 : InvF (setNb msg.nodeName { nb2 with seqNum := msg.seqNum } s) :=
      InvF_setNb_class h hnb Iff.rfl
    have hnb2 : (setNb msg.nodeName { nb2 with seqNum := msg.seqNum } s).neighbors
        msg.nodeName = some { nb2 with seqNum := msg.seqNum } := by
      rw [setNb_neighbors_apply, if_pos rfl]
    split
    · exact h2
    · split_ifs
      · exact h2
      · exact InvF_setNb_class h2 hnb2 (by simp only [hst]; decide)
  · rename_i hst
    dsimp only
    have h2 : InvF (setNb msg.nodeName { nb2 with seqNum := msg.seqNum } s) :=
      InvF_setNb_class h hnb Iff.rfl
    have hnb2 : (setNb msg.nodeName { nb2 with seqNum := msg.seqNum } s).neighbors
        msg.nodeName = some { nb2 with seqNum := msg.seqNum } := by
      rw [setNb_neighbors_apply, if_pos rfl]
    split_ifs
    · unfold processGRMsg
      dsimp only
      exact InvF_setNb_class h2 hnb2 (by simp only [hst]; decide)
    · split
      · exact InvF_down_erase _ _ _ _ h2
      · exact h2
  · rename_i hst
    dsimp only
    split
    · exact h
    · split_ifs
      · exact h
      · exact InvF_setNb_class h hnb (by simp only [hst]; decide)
  · exact h

theorem InvF_processHelloMsgKnown (cfg : SparkConfig) (msg : SparkHelloMsg)
    (t : Int) (sendOk : Bool) (s : SparkState) (h : InvF s) :
    InvF (processHelloMsgKnown cfg msg t sendOk s) := by
  unfold processHelloMsgKnown
  cases hnb : s.neighbors msg.nodeName with
  | none => exact h
  | some nb0 =>
      dsimp only
      cases hts : msg.neighborInfos.lookup cfg.myNodeName with
      | none =>
          dsimp only
          have h2 : InvF (setNb msg.nodeName { nb0 with
              neighborTimestamp := msg.sentTsInUs
              localTimestamp := t } s) :=
            InvF_setNb_class h hnb Iff.rfl
          have hnb2 : (setNb msg.nodeName { nb0 with
              neighborTimestamp := msg.sentTsInUs
              localTimestamp := t } s).neighbors msg.nodeName =
              some { nb0 with
                neighborTimestamp := msg.sentTsInUs
                localTimestamp := t } := by
            rw [setNb_neighbors_apply, if_pos rfl]
          split_ifs with hsol
          · refine InvF_helloDispatch cfg msg none _ _
              (InvF_sendHelloMsg cfg false false sendOk _ h2) ?_
            rw [congrFun (sendHelloMsg_neighbors cfg false false sendOk _) msg.nodeName]
            exact hnb2
          · exact InvF_helloDispatch cfg msg none _ _ h2 hnb2
      | some ts =>
          dsimp only
          have hcl : activeClass ((updateNeighborRtt t ts.lastNbrMsgSentTsInUs
              ts.lastMyMsgRcvdTsInUs msg.sentTsInUs { nb0 with
                neighborTimestamp := msg.sentTsInUs
                localTimestamp := t }).2).state ↔ activeClass nb0.state := by
            rw [updateNeighborRtt_state]
          have h2 : InvF (setNb msg.nodeName ((updateNeighborRtt t
              ts.lastNbrMsgSentTsInUs ts.lastMyMsgRcvdTsInUs msg.sentTsInUs
              { nb0 with
                neighborTimestamp := msg.sentTsInUs
                localTimestamp := t }).2) s) :=
            InvF_setNb_class h hnb hcl
          have hnb2 : (setNb msg.nodeName ((updateNeighborRtt t
              ts.lastNbrMsgSentTsInUs ts.lastMyMsgRcvdTsInUs msg.sentTsInUs
              { nb0 with
                neighborTimestamp := msg.sentTsInUs
                localTimestamp := t }).2) s).neighbors msg.nodeName =
              some ((updateNeighborRtt t ts.lastNbrMsgSentTsInUs
                ts.lastMyMsgRcvdTsInUs msg.sentTsInUs { nb0 with
                  neighborTimestamp := msg.sentTsInUs
                  localTimestamp := t }).2) := by
            rw [setNb_neighbors_apply, if_pos rfl]
          split_ifs with hsol
          · refine InvF_helloDispatch cfg msg (some ts) _ _
              (InvF_sendHelloMsg cfg false false sendOk _ h2) ?_
            rw [congrFun (sendHelloMsg_neighbors cfg false false sendOk _) msg.nodeName]
            exact hnb2
          · exact InvF_helloDispatch cfg msg (some ts) _ _ h2 hnb2

theorem InvF_processHelloMsg (cfg : SparkConfig) (msg : SparkHelloMsg)
    (t : Int) (sendOk : Bool) (s : SparkState) (h : InvF s) :
    InvF (processHelloMsg cfg msg t sendOk s) := by
  unfold processHelloMsg
  dsimp only
  split_ifs with h1 h2
  · exact InvF_bumpOpt _ _ h
  · cases hnb : (bumpOpt (sanityCheckHelloPkt cfg.myNodeName cfg.myDomainName
        cfg.lowestSupportedVersion msg.domainName msg.nodeName msg.version).2
        s).neighbors msg.nodeName with
    | some nb0 => exact InvF_processHelloMsgKnown cfg msg t sendOk _ (InvF_bumpOpt _ _ h)
    | none =>
        dsimp only
        split
        · exact InvF_bumpOpt _ _ (InvF_bumpOpt _ _ h)
        · split
          · exact InvF_bumpOpt _ _ (InvF_bumpOpt _ _ h)
          · exact InvF_bumpOpt _ _ (InvF_bumpOpt _ _ h)
          · rename_i area hlabel
            apply InvF_processHelloMsgKnown
            apply InvF_setNb_fresh
            · exact InvF_bumpOpt _ _ (InvF_bumpOpt _ _ h)
            · rw [bumpOpt_neighbors]
              exact hnb
            · exact (by decide :
                ¬ activeClass (Spark2Neighbor.create "" "" "" 0 0 "").state)
  · exact h

theorem InvF_handshakeNegotiate (cfg : SparkConfig) (msg : SparkHandshakeMsg)
    (nb0 : Spark2Neighbor) (s : SparkState) (h : InvF s)
    (hnb : s.neighbors msg.nodeName = some nb0)
    (hst : nb0.state = SparkNeighState.NEGOTIATE) :
    InvF (handshakeNegotiate cfg msg nb0 s) := by
  unfold handshakeNegotiate
  dsimp only
  have h2 : InvF (setNb msg.nodeName { nb0 with
      kvStoreCmdPort := msg.kvStoreCmdPort
      openrCtrlThriftPort := msg.openrCtrlThriftPort
      transportAddressV4 := msg.transportAddressV4
      transportAddressV6 := msg.transportAddressV6
      heartbeatHoldTime := max msg.holdTime cfg.myHeartbeatHoldTime
      gracefulRestartHoldTime := max msg.gracefulRestartTime cfg.myHoldTime } s) :=
    InvF_setNb_class h hnb Iff.rfl
  have hnb2 : ∀ k, (bumpOpt k (setNb msg.nodeName { nb0 with
      kvStoreCmdPort := msg.kvStoreCmdPort
      openrCtrlThriftPort := msg.openrCtrlThriftPort
      transportAddressV4 := msg.transportAddressV4
      transportAddressV6 := msg.transportAddressV6
      heartbeatHoldTime := max msg.holdTime cfg.myHeartbeatHoldTime
      gracefulRestartHoldTime := max msg.gracefulRestartTime cfg.myHoldTime } s)).neighbors
      msg.nodeName = some { nb0 with
      kvStoreCmdPort := msg.kvStoreCmdPort
      openrCtrlThriftPort := msg.openrCtrlThriftPort
      transportAddressV4 := msg.transportAddressV4
      transportAddressV6 := msg.transportAddressV6
      heartbeatHoldTime := max msg.holdTime cfg.myHeartbeatHoldTime
      gracefulRestartHoldTime := max msg.gracefulRestartTime cfg.myHoldTime } := by
    intro k
    rw [bumpOpt_neighbors, setNb_neighbors_apply, if_pos rfl]
  split_ifs <;>
    first
      | exact InvF_setNb_class (InvF_bumpOpt _ _ h2) (hnb2 _)
          (by simp only [hst]; decide)
      | exact InvF_up (InvF_bumpOpt _ _ h2) (by simp only [hst]; decide)
      | exact InvF_up
          (InvF_setNb_class (InvF_bumpOpt _ _ h2) (hnb2 _) Iff.rfl)
          (by simp only [hst]; decide)

theorem InvF_processHandshakeMsg (cfg : SparkConfig) (msg : SparkHandshakeMsg)
    (sendOk : Bool) (s : SparkState) (h : InvF s) :
    InvF (processHandshakeMsg cfg msg sendOk s) := by
  have hbody : InvF (processHandshakeMsgBody cfg msg sendOk s) := by
    unfold processHandshakeMsgBody
    by_cases htr : s.tracked
    · rw [if_neg (by simp [htr])]
      cases hnb : s.neighbors msg.nodeName with
      | none => exact h
      | some nb =>
          dsimp only
          by_cases hst : nb.state = SparkNeighState.NEGOTIATE
          · rw [if_neg (by simp [hst])]
            split_ifs with hadj
            · exact InvF_handshakeNegotiate cfg msg nb _ h hnb hst
            · refine InvF_handshakeNegotiate cfg msg nb _
                (InvF_sendHandshakeMsg _ _ _ _ h) ?_ hst
              rw [congrFun (sendHandshakeMsg_neighbors _ _ _ _) msg.nodeName]
              exact hnb
          · rw [if_pos (by simp [hst])]
            split_ifs with hadj
            · exact h
            · exact InvF_sendHandshakeMsg _ _ _ _ h
    · rw [if_pos (by simp [htr])]
      exact h
  unfold processHandshakeMsg
  cases hn : msg.neighborNodeName with
  | none => exact hbody
  | some tgt =>
      dsimp only
      split_ifs with hne
      · exact h
      · exact hbody

theorem InvF_processHeartbeatTimeout (n : String) (s s2 : SparkState)
    (hstep : processHeartbeatTimeout n s = some s2) (h : InvF s) : InvF s2 := by
  unfold processHeartbeatTimeout at hstep
  cases hnb : s.neighbors n with
  | none =>
      rw [hnb] at hstep
      cases hstep
  | some nb =>
      rw [hnb] at hstep
      dsimp only at hstep
      split_ifs at hstep
      injection hstep with hstep
      subst hstep
      exact InvF_down_erase s n _ _ h

theorem InvF_processNegotiateTimeout (n : String) (s s2 : SparkState)
    (hstep : processNegotiateTimeout n s = some s2) (h : InvF s) : InvF s2 := by
  unfold processNegotiateTimeout at hstep
  cases hnb : s.neighbors n with
  | none =>
      rw [hnb] at hstep
      cases hstep
  | some nb =>
      rw [hnb] at hstep
      dsimp only at hstep
      split_ifs at hstep with hst
      injection hstep with hstep
      subst hstep
      exact InvF_setNb_class h hnb (by simp only [hst]; decide)

theorem InvF_processGRTimeout (n : String) (s s2 : SparkState)
    (hstep : processGRTimeout n s = some s2) (h : InvF s) : InvF s2 := by
  unfold processGRTimeout at hstep
  cases hnb : s.neighbors n with
  | none =>
      rw [hnb] at hstep
      cases hstep
  | some nb =>
      rw [hnb] at hstep
      dsimp only at hstep
      split_ifs at hstep
      injection hstep with hstep
      subst hstep
      exact InvF_down_erase s n _ _ h

theorem InvF_step {cfg : SparkConfig} {s s2 : SparkState}
    (hstep : SparkStep cfg s s2) (h : InvF s) : InvF s2 := by
  cases hstep with
  | helloRecv msg t sendOk s => exact InvF_processHelloMsg cfg msg t sendOk s h
  | handshakeRecv msg sendOk s => exact InvF_processHandshakeMsg cfg msg sendOk s h
  | heartbeatRecv msg s s2 hh =>
      rw [processHeartbeatMsg_eq cfg msg s s2 hh]
      exact h
  | helloTimerFire a b c s => exact InvF_sendHelloMsg cfg a b c s h
  | heartbeatTimerFire sendOk s => exact InvF_sendHeartbeatMsg cfg sendOk s h
  | negotiateTimerFired n sendOk s harm =>
      unfold negotiateTimerFire
      split
      · exact h
      · exact InvF_sendHandshakeMsg _ _ _ _ h
  | heartbeatHoldTimeout n s s2 harm hh => exact InvF_processHeartbeatTimeout n s s2 hh h
  | negotiateHoldTimeout n s s2 harm hh => exact InvF_processNegotiateTimeout n s s2 hh h
  | grHoldTimeout n s s2 harm hh => exact InvF_processGRTimeout n s s2 hh h

/-- A state with an empty neighbor submap satisfies `InvF` vacuously —
in particular the results of `deleteInterfaceFromDb` and
`addInterfaceToDb`, which drop or re-create the submap empty. -/
theorem InvF_empty {s : SparkState} (h : ∀ m, s.neighbors m = none) : InvF s := by
  intro n nb hnb hcl
  rw [h n] at hnb
  cases hnb

theorem InvF_ifaceStep {cfg : SparkConfig} {s s2 : SparkState}
    (hstep : IfaceStep cfg s s2) : InvF s2 := by
  cases hstep with
  | ifaceDelete names s s2 htr hdom hnodup h =>
      unfold deleteInterface at h
      cases hl : deleteInterfaceLoop cfg names s with
      | none =>
          rw [hl] at h
          cases h
      | some s3 =>
          rw [hl] at h
          have h2 : some ({ s3 with
              neighbors := fun _ => none
              tracked := false }) = some s2 := h
          injection h2 with h2
          subst h2
          exact InvF_empty (fun m => rfl)
  | ifaceAdd s h => exact InvF_empty (fun m => rfl)

theorem InvF_stepI {cfg : SparkConfig} {s s2 : SparkState}
    (hstep : SparkStepI cfg s s2) (h : InvF s) : InvF s2 := by
  cases hstep with
  | inl hs => exact InvF_step hs h
  | inr hi => exact InvF_ifaceStep hi

theorem InvF_initState (seq0 : Nat) : InvF (initState seq0) :=
  InvF_empty (fun m => rfl)

/-- `InvF` holds in every state of the full scope: messages, timers
and interface updates. -/
theorem InvF_reachI {cfg : SparkConfig} {seq0 : Nat} {s : SparkState}
    (h : ReachI cfg seq0 s) : InvF s := by
  unfold ReachI at h
  induction h with
  | refl => exact InvF_initState seq0
  | tail hsteps hstep ih => exact InvF_stepI hstep ih

/-- The key set of the neighbor submap of the scenario state c3t3 is
exactly `{"B"}`. -/
theorem c3t3_neighbors_dom (n : String) :
    (c3t3.neighbors n).isSome = true ↔ n ∈ ["B"] := by
  by_cases h : n = "B"
  · subst h
    have hs : (c3t3.neighbors "B").isSome = true := by decide
    simp [hs]
  · have h0 : c3t3.neighbors n = none := by
      show (processHandshakeMsg cfg0 hsBE false c3s2).neighbors n = none
      rw [processHandshakeMsg_neighbors_ne _ _ _ _ _ h]
      show (processHelloMsg cfg0 helloB2 0 false c3s1).neighbors n = none
      rw [processHelloMsg_neighbors_ne _ _ _ _ _ _ h]
      show (processHelloMsg cfg0 helloB1 0 false (initState 10)).neighbors n = none
      rw [processHelloMsg_neighbors_ne _ _ _ _ _ _ h]
      rfl
    simp [h0, h]

/-! ### C3: the active-set invariant, corrected -/

/-- C3 counterexample: after bring-up of neighbor "B" (two HELLOs and
a handshake) followed by a HELLO with the restarting flag, the state
c3s4 is reachable, "B" is in state RESTART, and "B" is STILL in the
active set — the claim that a neighbor in any state other than
ESTABLISHED is not in the active set is false on the code
(`processGRMsg` does not touch `ifNameToActiveNeighbors_`). -/
theorem C3_active_set_counterexample :
    Reach cfg0 10 c3s4 ∧
    (c3s4.neighbors "B").map Spark2Neighbor.state = some .RESTART ∧
    isActive c3s4 "B" := by
  refine ⟨?_, by decide, by decide⟩
  exact Relation.ReflTransGen.tail
    (Relation.ReflTransGen.tail
      (Relation.ReflTransGen.tail
        (Relation.ReflTransGen.tail Relation.ReflTransGen.refl
          (SparkStep.helloRecv helloB1 0 false (initState 10)))
        (SparkStep.helloRecv helloB2 0 false c3s1))
      (SparkStep.handshakeRecv hsB false c3s2))
    (SparkStep.helloRecv helloB3 0 false c3s3)

/-- C3 (amended): (1) restricted to message processing and timer
expirations — no interface updates — a stored neighbor's name is a
member of the active set for its interface iff the neighbor's state is
ESTABLISHED or RESTART; in the remaining states (IDLE, WARM,
NEGOTIATE) it is not a member.  (2) In the full scope of the claim —
messages, timer expirations AND interface updates — only the forward
direction survives: a stored neighbor in ESTABLISHED or RESTART is
always in the active set.  (3) The backward direction fails in the
full scope: `deleteInterfaceFromDb` skips `neighborDownWrapper` for a
neighbor whose v6 transport address is empty and never clears
`ifNameToActiveNeighbors_[ifName]` wholesale, so after the interface
is removed and re-added and "B" is rediscovered, the reachable state
c3t6 stores "B" in state WARM while "B" is still a member of the
active set. -/
theorem C3_active_set_amended :
    (∀ (cfg : SparkConfig) (seq0 : Nat) (s : SparkState), Reach cfg seq0 s →
      ∀ (n : String) (nb : Spark2Neighbor), s.neighbors n = some nb →
        (isActive s n ↔ (nb.state = .ESTABLISHED ∨ nb.state = .RESTART))) ∧
    (∀ (cfg : SparkConfig) (seq0 : Nat) (s : SparkState), ReachI cfg seq0 s →
      ∀ (n : String) (nb : Spark2Neighbor), s.neighbors n = some nb →
        (nb.state = .ESTABLISHED ∨ nb.state = .RESTART) → isActive s n) ∧
    ReachI cfg0 10 c3t6 ∧
    (c3t6.neighbors "B").map Spark2Neighbor.state = some .WARM ∧
    isActive c3t6 "B" := by
  refine ⟨fun cfg seq0 s h n nb hnb => (Inv_reach h).2 n nb hnb,
    fun cfg seq0 s h n nb hnb hcl => InvF_reachI h n nb hnb hcl,
    ?_, by decide, by decide⟩
  have h1 : SparkStepI cfg0 (initState 10) c3s1 :=
    Or.inl (SparkStep.helloRecv helloB1 0 false (initState 10))
  have h2 : SparkStepI cfg0 c3s1 c3s2 :=
    Or.inl (SparkStep.helloRecv helloB2 0 false c3s1)
  have h3 : SparkStepI cfg0 c3s2 c3t3 :=
    Or.inl (SparkStep.handshakeRecv hsBE false c3s2)
  have h4 : SparkStepI cfg0 c3t3 c3t4 :=
    Or.inr (IfaceStep.ifaceDelete ["B"] c3t3 c3t4 (by decide) c3t3_neighbors_dom
      (by decide) rfl)
  have h5 : SparkStepI cfg0 c3t4 c3t5 :=
    Or.inr (IfaceStep.ifaceAdd c3t4 (by decide))
  have h6 : SparkStepI cfg0 c3t5 c3t6 :=
    Or.inl (SparkStep.helloRecv helloB1 0 false c3t5)
  exact Relation.ReflTransGen.tail
    (Relation.ReflTransGen.tail
      (Relation.ReflTransGen.tail
        (Relation.ReflTransGen.tail
          (Relation.ReflTransGen.tail
            (Relation.ReflTransGen.tail Relation.ReflTransGen.refl h1) h2) h3)
        h4) h5) h6

/-- Witness for C3 (amended) at the reachable state c3s3, whose
neighbor "B" is ESTABLISHED and hence active (by part 1, with every
hypothesis discharged concretely). -/
theorem C3_active_set_amended_witness : isActive c3s3 "B" := by
  obtain ⟨hiff, hfwd, hchain, hwarm, hstale⟩ := C3_active_set_amended
  have hreach : Reach cfg0 10 c3s3 :=
    Relation.ReflTransGen.tail
      (Relation.ReflTransGen.tail
        (Relation.ReflTransGen.tail Relation.ReflTransGen.refl
          (SparkStep.helloRecv helloB1 0 false (initState 10)))
        (SparkStep.helloRecv helloB2 0 false c3s1))
      (SparkStep.handshakeRecv hsB false c3s2)
  cases hnb : c3s3.neighbors "B" with
  | none =>
      have hsome : (c3s3.neighbors "B").isSome = true := by decide
      rw [hnb] at hsome
      cases hsome
  | some nb =>
      apply (hiff cfg0 10 c3s3 hreach "B" nb hnb).mpr
      left
      have hstate : (c3s3.neighbors "B").map Spark2Neighbor.state =
          some SparkNeighState.ESTABLISHED := by decide
      rw [hnb] at hstate
      simpa using hstate

/-! ### C1: hello processing in RESTART, corrected -/

/-- C1 counterexample: with neighbor "B" in RESTART and recorded
seqNum 5, a reflecting HELLO with seqNum 6 (≥ the recorded value) is
IGNORED — the neighbor stays in RESTART with seqNum 5 and no
NEIGHBOR_RESTARTED event is published — against the claim that such a
HELLO yields NEIGHBOR_RESTARTED and ESTABLISHED. -/
theorem C1_restart_seqnum_counterexample :
    nbRestart.seqNum ≤ helloC1.seqNum ∧
    ((processHelloMsg cfg0 helloC1 0 false sRestart).neighbors "B").map
      Spark2Neighbor.state = some .RESTART ∧
    ((processHelloMsg cfg0 helloC1 0 false sRestart).neighbors "B").map
      Spark2Neighbor.seqNum = some 5 ∧
    (processHelloMsg cfg0 helloC1 0 false sRestart).events = [] := by
  refine ⟨by decide, by decide, by decide, by decide⟩

/-- Reduction of `processHelloMsg` to the per-state dispatch for a
sanity-passing HELLO from a known neighbor. -/
theorem processHelloMsg_known_reduce (cfg : SparkConfig) (msg : SparkHelloMsg)
    (t : Int) (sendOk : Bool) (s : SparkState) (nb : Spark2Neighbor)
    (ts : ReflectedNeighborInfo)
    (htr : s.tracked = true)
    (hs1 : msg.nodeName ≠ cfg.myNodeName)
    (hs2 : msg.domainName = cfg.myDomainName)
    (hs3 : cfg.lowestSupportedVersion ≤ msg.version)
    (hnb : s.neighbors msg.nodeName = some nb)
    (hts : msg.neighborInfos.lookup cfg.myNodeName = some ts) :
    processHelloMsg cfg msg t sendOk s =
      helloDispatch cfg msg (some ts)
        ((updateNeighborRtt t ts.lastNbrMsgSentTsInUs ts.lastMyMsgRcvdTsInUs
          msg.sentTsInUs { nb with
            neighborTimestamp := msg.sentTsInUs
            localTimestamp := t }).2)
        (if msg.solicitResponse then
          sendHelloMsg cfg false false sendOk (setNb msg.nodeName
            ((updateNeighborRtt t ts.lastNbrMsgSentTsInUs ts.lastMyMsgRcvdTsInUs
              msg.sentTsInUs { nb with
                neighborTimestamp := msg.sentTsInUs
                localTimestamp := t }).2) s)
        else setNb msg.nodeName
          ((updateNeighborRtt t ts.lastNbrMsgSentTsInUs ts.lastMyMsgRcvdTsInUs
            msg.sentTsInUs { nb with
              neighborTimestamp := msg.sentTsInUs
              localTimestamp := t }).2) s) := by
  have hsan : sanityCheckHelloPkt cfg.myNodeName cfg.myDomainName
      cfg.lowestSupportedVersion msg.domainName msg.nodeName msg.version =
      (.SUCCESS, none) := by
    unfold sanityCheckHelloPkt
    rw [if_neg hs1, if_neg (by simp [hs2]), if_neg (by omega)]
  unfold processHelloMsg
  rw [if_neg (by simp [htr])]
  dsimp only
  rw [hsan]
  dsimp only
  rw [if_neg (by simp)]
  dsimp only [bumpOpt]
  rw [hnb]
  dsimp only
  unfold processHelloMsgKnown
  rw [hnb]
  dsimp only
  rw [hts]

/-- The dispatch in RESTART: a reflecting HELLO is dropped when the
received seqNum is strictly greater than the recorded one; otherwise
the seqNum is updated, NEIGHBOR_RESTARTED is published, the heartbeat
hold timer is re-armed, the graceful-restart hold timer is cancelled
and the state becomes ESTABLISHED. -/
theorem helloDispatch_restart (cfg : SparkConfig) (msg : SparkHelloMsg)
    (ts : ReflectedNeighborInfo) (nb2 : Spark2Neighbor) (s : SparkState)
    (hst : nb2.state = SparkNeighState.RESTART) :
    (nb2.seqNum < msg.seqNum → helloDispatch cfg msg (some ts) nb2 s = s) ∧
    (msg.seqNum ≤ nb2.seqNum →
      helloDispatch cfg msg (some ts) nb2 s =
        setNb msg.nodeName
          { nb2 with
            seqNum := msg.seqNum
            heartbeatHoldTimer := true
            gracefulRestartHoldTimer := false
            state := SparkNeighState.ESTABLISHED }
          (notifySparkNeighborEvent .NEIGHBOR_RESTARTED msg.nodeName s)) := by
  constructor
  · intro hlt
    unfold helloDispatch
    split <;> rename_i heq <;> rw [hst] at heq <;> try cases heq
    dsimp only
    rw [if_pos hlt]
  · intro hge
    unfold helloDispatch
    split <;> rename_i heq <;> rw [hst] at heq <;> try cases heq
    dsimp only
    rw [if_neg (by omega)]
    rfl

/-- C1 (amended): for a neighbor in RESTART, a received HELLO that
reflects us is ignored iff its seqNum is strictly GREATER than the
seqNum recorded for the neighbor (the node missed the restart
boundary); otherwise — seqNum less than or equal to the recorded one —
the engine updates the recorded seqNum, publishes NEIGHBOR_RESTARTED,
re-arms the heartbeat hold timer, cancels the graceful-restart hold
timer and transitions the neighbor to ESTABLISHED. -/
theorem C1_restart_hello_amended (cfg : SparkConfig) (msg : SparkHelloMsg)
    (t : Int) (sendOk : Bool) (s : SparkState) (nb : Spark2Neighbor)
    (ts : ReflectedNeighborInfo)
    (htr : s.tracked = true)
    (hs1 : msg.nodeName ≠ cfg.myNodeName)
    (hs2 : msg.domainName = cfg.myDomainName)
    (hs3 : cfg.lowestSupportedVersion ≤ msg.version)
    (hnb : s.neighbors msg.nodeName = some nb)
    (hst : nb.state = SparkNeighState.RESTART)
    (hts : msg.neighborInfos.lookup cfg.myNodeName = some ts) :
    (nb.seqNum < msg.seqNum →
      ((processHelloMsg cfg msg t sendOk s).neighbors msg.nodeName).map
        Spark2Neighbor.state = some .RESTART ∧
      ((processHelloMsg cfg msg t sendOk s).neighbors msg.nodeName).map
        Spark2Neighbor.seqNum = some nb.seqNum ∧
      (processHelloMsg cfg msg t sendOk s).events = s.events) ∧
    (msg.seqNum ≤ nb.seqNum →
      ∃ nb2, (processHelloMsg cfg msg t sendOk s).neighbors msg.nodeName = some nb2 ∧
        nb2.state = .ESTABLISHED ∧ nb2.seqNum = msg.seqNum ∧
        nb2.heartbeatHoldTimer = true ∧ nb2.gracefulRestartHoldTimer = false ∧
        (processHelloMsg cfg msg t sendOk s).events =
          s.events ++ [(.NEIGHBOR_RESTARTED, msg.nodeName)]) := by
  have hred := processHelloMsg_known_reduce cfg msg t sendOk s nb ts htr hs1 hs2
    hs3 hnb hts
  have hstate : ((updateNeighborRtt t ts.lastNbrMsgSentTsInUs
      ts.lastMyMsgRcvdTsInUs msg.sentTsInUs { nb with
        neighborTimestamp := msg.sentTsInUs
        localTimestamp := t }).2).state = SparkNeighState.RESTART := by
    rw [updateNeighborRtt_state]
    exact hst
  have hseq : ((updateNeighborRtt t ts.lastNbrMsgSentTsInUs
      ts.lastMyMsgRcvdTsInUs msg.sentTsInUs { nb with
        neighborTimestamp := msg.sentTsInUs
        localTimestamp := t }).2).seqNum = nb.seqNum := by
    rw [updateNeighborRtt_seqNum]
  have hlook : (if msg.solicitResponse then
      sendHelloMsg cfg false false sendOk (setNb msg.nodeName
        ((updateNeighborRtt t ts.lastNbrMsgSentTsInUs ts.lastMyMsgRcvdTsInUs
          msg.sentTsInUs { nb with
            neighborTimestamp := msg.sentTsInUs
            localTimestamp := t }).2) s)
      else setNb msg.nodeName
        ((updateNeighborRtt t ts.lastNbrMsgSentTsInUs ts.lastMyMsgRcvdTsInUs
          msg.sentTsInUs { nb with
            neighborTimestamp := msg.sentTsInUs
            localTimestamp := t }).2) s).neighbors msg.nodeName =
      some ((updateNeighborRtt t ts.lastNbrMsgSentTsInUs ts.lastMyMsgRcvdTsInUs
        msg.sentTsInUs { nb with
          neighborTimestamp := msg.sentTsInUs
          localTimestamp := t }).2) := by
    split_ifs
    · rw [congrFun (sendHelloMsg_neighbors _ _ _ _ _) msg.nodeName,
        setNb_neighbors_apply, if_pos rfl]
    · rw [setNb_neighbors_apply, if_pos rfl]
  have hev : (if msg.solicitResponse then
      sendHelloMsg cfg false false sendOk (setNb msg.nodeName
        ((updateNeighborRtt t ts.lastNbrMsgSentTsInUs ts.lastMyMsgRcvdTsInUs
          msg.sentTsInUs { nb with
            neighborTimestamp := msg.sentTsInUs
            localTimestamp := t }).2) s)
      else setNb msg.nodeName
        ((updateNeighborRtt t ts.lastNbrMsgSentTsInUs ts.lastMyMsgRcvdTsInUs
          msg.sentTsInUs { nb with
            neighborTimestamp := msg.sentTsInUs
            localTimestamp := t }).2) s).events = s.events := by
    split_ifs
    · rw [sendHelloMsg_events, setNb_events]
    · rw [setNb_events]
  have hdis := helloDispatch_restart cfg msg ts
    ((updateNeighborRtt t ts.lastNbrMsgSentTsInUs ts.lastMyMsgRcvdTsInUs
      msg.sentTsInUs { nb with
        neighborTimestamp := msg.sentTsInUs
        localTimestamp := t }).2)
    (if msg.solicitResponse then
      sendHelloMsg cfg false false sendOk (setNb msg.nodeName
        ((updateNeighborRtt t ts.lastNbrMsgSentTsInUs ts.lastMyMsgRcvdTsInUs
          msg.sentTsInUs { nb with
            neighborTimestamp := msg.sentTsInUs
            localTimestamp := t }).2) s)
      else setNb msg.nodeName
        ((updateNeighborRtt t ts.lastNbrMsgSentTsInUs ts.lastMyMsgRcvdTsInUs
          msg.sentTsInUs { nb with
            neighborTimestamp := msg.sentTsInUs
            localTimestamp := t }).2) s)
    hstate
  constructor
  · intro hlt
    rw [hred, hdis.1 (by omega)]
    refine ⟨?_, ?_, hev⟩
    · rw [hlook]
      simp [hstate]
    · rw [hlook]
      simp [hseq]
  · intro hge
    rw [hred, hdis.2 (by omega)]
    refine ⟨_, by rw [setNb_neighbors_apply, if_pos rfl], rfl, rfl, rfl, rfl, ?_⟩
    rw [setNb_events, notify_events, hev]

/-- Witness for C1 (amended): concretely, the RESTART neighbor "B"
with recorded seqNum 5 processes a reflecting HELLO with seqNum 4
(≤ 5): it becomes ESTABLISHED with seqNum 4 and NEIGHBOR_RESTARTED is
published. -/
theorem C1_restart_hello_amended_witness :
    ∃ nb2, (processHelloMsg cfg0 { helloC1 with seqNum := 4 } 0 false
        sRestart).neighbors "B" = some nb2 ∧
      nb2.state = .ESTABLISHED ∧ nb2.seqNum = 4 ∧
      nb2.heartbeatHoldTimer = true ∧ nb2.gracefulRestartHoldTimer = false ∧
      (processHelloMsg cfg0 { helloC1 with seqNum := 4 } 0 false
        sRestart).events = [(.NEIGHBOR_RESTARTED, "B")] := by
  have h := (C1_restart_hello_amended cfg0 { helloC1 with seqNum := 4 } 0 false
    sRestart nbRestart
    { seqNum := 1, lastNbrMsgSentTsInUs := 0, lastMyMsgRcvdTsInUs := 0 }
    rfl (by decide) rfl (by decide) (by decide) rfl (by decide)).2 (by decide)
  obtain ⟨nb2, h1, h2, h3, h4, h5, h6⟩ := h
  exact ⟨nb2, h1, h2, h3, h4, h5, h6⟩

/-- C5: over any execution of the engine slice the sequence counter
never decreases, and each HELLO transmission on a tracked interface and
each HEARTBEAT transmission increments it by exactly one, whatever the
send outcome. -/
theorem C5_mySeqNum_monotone_and_increments (cfg : SparkConfig) :
    (∀ s s2 : SparkState, Relation.ReflTransGen (SparkStep cfg) s s2 →
      s.mySeqNum ≤ s2.mySeqNum) ∧
    (∀ (inFastInitState restarting sendOk : Bool) (s : SparkState),
      s.tracked = true →
      (sendHelloMsg cfg inFastInitState restarting sendOk s).mySeqNum =
        s.mySeqNum + 1) ∧
    (∀ (sendOk : Bool) (s : SparkState),
      (sendHeartbeatMsg cfg sendOk s).mySeqNum = s.mySeqNum + 1) := by
  refine ⟨?_, ?_, ?_⟩
  · intro s s2 h
    induction h with
    | refl => exact le_refl _
    | tail hsteps hstep ih => exact le_trans ih (SparkStep_mySeqNum_le hstep)
  · intro a b c s htr
    rw [sendHelloMsg_mySeqNum, if_pos htr]
  · intro sendOk s
    exact sendHeartbeatMsg_mySeqNum cfg sendOk s

/-- Witness for C5: one hello send and one heartbeat send from the
start state advance the counter from 10 to 12, and the two-step chain
is monotone. -/
theorem C5_mySeqNum_monotone_and_increments_witness :
    (sendHelloMsg cfg0 true false true (initState 10)).mySeqNum = 11 ∧
    (sendHeartbeatMsg cfg0 true (initState 10)).mySeqNum = 11 ∧
    (initState 10).mySeqNum ≤
      (sendHeartbeatMsg cfg0 true (sendHelloMsg cfg0 true false true
        (initState 10))).mySeqNum := by
  have h := C5_mySeqNum_monotone_and_increments cfg0
  refine ⟨h.2.1 true false true (initState 10) rfl, h.2.2 true (initState 10), ?_⟩
  exact h.1 _ _
    (Relation.ReflTransGen.tail
      (Relation.ReflTransGen.tail Relation.ReflTransGen.refl
        (SparkStep.helloTimerFire true false true (initState 10)))
      (SparkStep.heartbeatTimerFire true (sendHelloMsg cfg0 true false true
        (initState 10))))

end Spark
